import Mathlib

/-!
Verification of the job/state orchestration core of the jant-vid-pipe
repository: the project-centric Firestore data model
(backend/app/models/project_models.py), the backend service
(backend/app/services/firestore_service.py), the cloud-function client
(functions/services/project_firestore_client.py), the job executor
(functions/project_functions.py), the dispatch endpoints
(backend/app/routers/projects.py, backend/app/services/cloud_functions.py)
and the SSE live-update generator (backend/app/routers/storyboards.py).

Documents are modelled shallowly: Firestore documents become Lean
structures, Python dicts become association lists where the dynamic key
set matters, SERVER_TIMESTAMP / datetime.now() become an explicit
Timestamp (Nat) argument, and Python float durations become Rat (no
arithmetic is ever performed on them, only range checks, so this is
exact).  A crucial bit of fidelity: Python dict.update treats a key such
as "assets.video_path" as a literal flat key, NOT as a nested path, so
scene documents carry an extra association list for such literal dotted
keys, which are disjoint from the canonical field names (all canonical
field names are dot-free).
-/

namespace JVP

/-- Server timestamps / datetime.now values, abstracted to a counter. -/
abbrev Timestamp := Nat

/-- Python str.startswith, on the character lists of the strings. -/
def strStartsWith (s pre : String) : Bool :=
  pre.data.isPrefixOf s.data

/-- Python truthiness of an optional string field: None and the empty
string are falsy. -/
def strTruthy : Option String → Bool
  | none => false
  | some s => !s.isEmpty

/-- Generic association-list lookup (Python dict read / Firestore doc fetch). -/
def lookupKey {α : Type} : List (String × α) → String → Option α
  | [], _ => none
  | (k0, v) :: rest, k => if k0 = k then some v else lookupKey rest k

/-- Python dict assignment d[k] = v: replace the entry in place if the key
exists, else append. -/
def setKey {α : Type} : List (String × α) → String → α → List (String × α)
  | [], k, v => [(k, v)]
  | (k0, v0) :: rest, k, v =>
    if k0 = k then (k, v) :: rest else (k0, v0) :: setKey rest k v

/-- SceneAssets document (project_models.SceneAssets): Firebase Storage
paths, all optional. -/
structure AssetsDoc where
  composition_path : Option String := none
  video_path : Option String := none
  audio_path : Option String := none
  thumbnail_path : Option String := none
  generated_at : Option Timestamp := none
deriving DecidableEq, Repr

/-- ActiveJob document embedded on a scene (project_models.ActiveJob /
the dict built by ProjectFirestoreClient.update_scene_job_status).
started_at and last_update are optional here because the cloud-function
client stores started_at = None for non-processing statuses; the pydantic
model requires both, which the parse function below checks. -/
structure ActiveJobDoc where
  job_id : String
  type : String
  status : String
  progress : Int
  started_at : Option Timestamp
  last_update : Option Timestamp
  error_message : Option String := none
deriving DecidableEq, Repr

/-- Composition document (project_models.Composition). -/
structure CompositionDoc where
  description : String
  styling : String
  animation : String
  generated_at : Timestamp
deriving DecidableEq, Repr

/-- Values that appear under literal flat keys written by dict.update
with dotted key names (strings, ints, server timestamps). -/
inductive FVal where
  | s (x : String)
  | i (n : Int)
  | ts (t : Timestamp)
deriving DecidableEq, Repr

/-- Scene document as stored inside a project document
(project_models.Scene plus stray literal dotted keys).  extra holds keys
such as "assets.video_path" that Python dict.update adds literally; these
key names contain a dot and therefore never collide with the canonical
field names. -/
structure SceneDoc where
  id : String
  scene_number : Int
  title : String
  description : String
  duration_seconds : Rat
  assets : AssetsDoc := {}
  active_job : Option ActiveJobDoc := none
  composition : Option CompositionDoc := none
  extra : List (String × FVal) := []
deriving DecidableEq, Repr

/-- Project stats (project_models.ProjectStats). -/
structure StatsDoc where
  total_scenes : Int
  completed_scenes : Int
  last_activity : Timestamp
deriving DecidableEq, Repr

/-- Project document (project_models.Project).  The embedded storyboard
carries no data relevant to the claims and is omitted. -/
structure ProjectDoc where
  id : String
  name : String
  description : Option String := none
  user_id : String
  created_at : Timestamp
  updated_at : Timestamp
  scenes : List SceneDoc := []
  stats : StatsDoc
deriving DecidableEq, Repr

/-- project_models.is_scene_complete: a scene is complete iff both
assets.video_path and assets.composition_path are truthy. -/
def is_scene_complete (s : SceneDoc) : Bool :=
  strTruthy s.assets.video_path && strTruthy s.assets.composition_path

/-- project_models.update_project_stats: recompute total_scenes,
completed_scenes and last_activity from the current scene list. -/
def update_project_stats (now : Timestamp) (p : ProjectDoc) : ProjectDoc :=
  { p with
    stats :=
      { total_scenes := (p.scenes.length : Int),
        completed_scenes := (p.scenes.countP is_scene_complete : Int),
        last_activity := now },
    updated_at := now }

/-!
Cloud-function client: functions/services/project_firestore_client.py.
update_scene_in_project applies an updates dict to the matching scene via
Python dict.update (scenes[i].update(updates)): a key equal to a canonical
field name replaces that field, while dotted keys such as
"assets.video_path" become literal flat keys.
-/

/-- One key/value entry of an updates dict passed to
update_scene_in_project.  The constructors record the key name together
with the shape of the value used by the in-repo callers; flat covers every
dotted key name, stored literally by dict.update. -/
inductive UpdEntry where
  | activeJob (j : ActiveJobDoc)
  | compositionObj (c : CompositionDoc)
  | assetsObj (a : AssetsDoc)
  | flat (key : String) (v : FVal)
deriving DecidableEq, Repr

/-- Effect of one dict.update entry on a scene document. -/
def applyUpd (s : SceneDoc) : UpdEntry → SceneDoc
  | .activeJob j => { s with active_job := some j }
  | .compositionObj c => { s with composition := some c }
  | .assetsObj a => { s with assets := a }
  | .flat k v => { s with extra := setKey s.extra k v }

/-- scenes[i].update(updates): entries applied in dict insertion order. -/
def applyUpds (s : SceneDoc) (us : List UpdEntry) : SceneDoc :=
  us.foldl applyUpd s

/-- Update the first scene whose id matches (the Python loop breaks on the
first match); none when no scene matches. -/
def updateFirstScene (sid : String) (f : SceneDoc → SceneDoc) :
    List SceneDoc → Option (List SceneDoc)
  | [] => none
  | s :: rest =>
    if s.id == sid then some (f s :: rest)
    else (updateFirstScene sid f rest).map (s :: ·)

/-- The condition guarding the stats recomputation in
update_scene_in_project: "if 'assets' in updates and
(updates['assets'].get('video_path') or
updates['assets'].get('composition_path'))". -/
def updAssetsTrigger (us : List UpdEntry) : Bool :=
  us.any fun u =>
    match u with
    | .assetsObj a => strTruthy a.video_path || strTruthy a.composition_path
    | _ => false

/-- ProjectFirestoreClient.update_scene_in_project: read the project,
apply the updates dict to the matching scene, then write scenes and
updated_at back; when the assets trigger fires, also recompute
stats.completed_scenes as the count of scenes whose assets.video_path is
truthy; stats.last_activity is always refreshed.  Returns none when the
project has no matching scene (the Python function returns False); the
project-not-found case is handled by the callers below at the store
level. -/
def cfUpdateSceneInProject (now : Timestamp) (p : ProjectDoc) (sid : String)
    (us : List UpdEntry) : Option ProjectDoc :=
  match updateFirstScene sid (fun s => applyUpds s us) p.scenes with
  | none => none
  | some scenes1 =>
    let stats1 :=
      if updAssetsTrigger us then
        { p.stats with
          completed_scenes :=
            (scenes1.countP (fun s => strTruthy s.assets.video_path) : Int),
          last_activity := now }
      else { p.stats with last_activity := now }
    some { p with scenes := scenes1, updated_at := now, stats := stats1 }

/-- The active_job dict built by
ProjectFirestoreClient.update_scene_job_status: started_at only for
processing (else None), error_message only when truthy. -/
def mkActiveJobStatus (now : Timestamp) (jobType status jobId : String)
    (progress : Int) (errorMessage : Option String) : ActiveJobDoc :=
  { job_id := jobId, type := jobType, status := status, progress := progress,
    started_at := if status == "processing" then some now else none,
    last_update := some now,
    error_message :=
      match errorMessage with
      | some m => if m.isEmpty then none else some m
      | none => none }

/-- ProjectFirestoreClient.update_scene_job_status: build the active_job
dict and store it wholesale under the scene's active_job key. -/
def cfUpdateSceneJobStatus (now : Timestamp) (p : ProjectDoc)
    (sid jobType status jobId : String) (progress : Int)
    (errorMessage : Option String := none) : Option ProjectDoc :=
  cfUpdateSceneInProject now p sid
    [.activeJob (mkActiveJobStatus now jobType status jobId progress errorMessage)]

/-- ProjectFirestoreClient.update_scene_assets: the updates dict uses
dotted key names ("assets.<type>_path", "assets.generated_at", and for
video/composition also "active_job.status", "active_job.progress",
"active_job.last_update"); dict.update stores them as literal flat keys
on the scene. -/
def cfUpdateSceneAssets (now : Timestamp) (p : ProjectDoc)
    (sid assetType storagePath : String) : Option ProjectDoc :=
  let assetKey := assetType ++ "_path"
  let base : List UpdEntry :=
    [.flat ("assets." ++ assetKey) (.s storagePath),
     .flat "assets.generated_at" (.ts now)]
  let us :=
    if assetType == "video" || assetType == "composition" then
      base ++
        [.flat "active_job.status" (.s "completed"),
         .flat "active_job.progress" (.i 100),
         .flat "active_job.last_update" (.ts now)]
    else base
  cfUpdateSceneInProject now p sid us

/-- ProjectFirestoreClient.update_scene_composition: store the generated
composition object under the scene's composition key. -/
def cfUpdateSceneComposition (now : Timestamp) (p : ProjectDoc)
    (sid desc styl anim : String) : Option ProjectDoc :=
  cfUpdateSceneInProject now p sid
    [.compositionObj
      { description := desc, styling := styl, animation := anim,
        generated_at := now }]

/-!
Backend service: backend/app/services/firestore_service.py.  get_project,
add_scene and update_scene parse the stored document through the pydantic
Project model (Project(**data)) and, on write, serialize it back with
project.dict() and a full set(); the pydantic round trip drops unknown
keys (the literal dotted extras), requires started_at/last_update on an
ActiveJob, restricts status/type to their enums, clamps progress to
0..100 (the field validator) and bounds duration_seconds to (0, 30].
update_scene_job and update_scene_assets work on the raw dict
(doc.to_dict()) without the pydantic round trip.
-/

/-- Pydantic validation of an embedded ActiveJob: enum membership for
status and type, both timestamps required, progress clamped by the
validator. -/
def parseActiveJob (j : ActiveJobDoc) : Option ActiveJobDoc :=
  if (j.status == "queued" || j.status == "processing" ||
      j.status == "completed" || j.status == "failed")
     && (j.type == "composition" || j.type == "video" || j.type == "audio")
  then
    match j.started_at, j.last_update with
    | some _, some _ => some { j with progress := max 0 (min 100 j.progress) }
    | _, _ => none
  else none

/-- Pydantic round trip of a stored scene: unknown flat keys dropped,
duration bounds checked, active_job validated. -/
def parseScene (s : SceneDoc) : Option SceneDoc :=
  if 0 < s.duration_seconds ∧ s.duration_seconds ≤ 30 then
    match s.active_job with
    | none => some { s with extra := [] }
    | some j => (parseActiveJob j).map fun j1 =>
        { s with active_job := some j1, extra := [] }
  else none

/-- Pydantic validation of the scene list, element by element. -/
def parseScenes : List SceneDoc → Option (List SceneDoc)
  | [] => some []
  | s :: rest =>
    match parseScene s with
    | none => none
    | some s1 => (parseScenes rest).map (s1 :: ·)

/-- Pydantic round trip of a whole project document (Project(**data)). -/
def parseProject (p : ProjectDoc) : Option ProjectDoc :=
  (parseScenes p.scenes).map fun ss => { p with scenes := ss }

/-- FirestoreService.create_project: a fresh project with no scenes and
zeroed stats. -/
def fsCreateProject (pid name : String) (desc : Option String)
    (uid : String) (now : Timestamp) : ProjectDoc :=
  { id := pid, name := name, description := desc, user_id := uid,
    created_at := now, updated_at := now, scenes := [],
    stats := { total_scenes := 0, completed_scenes := 0, last_activity := now } }

/-- FirestoreService.get_project on a fetched document: None when the
stored user_id differs from the requester (the not-found case lives at
the store level, see fsGetProject); a pydantic validation failure raises
instead of returning None, hence the Except layer. -/
def fsGetProjectDoc (d : ProjectDoc) (uid : String) :
    Except String (Option ProjectDoc) :=
  if d.user_id == uid then
    match parseProject d with
    | some proj => .ok (some proj)
    | none => .error "validation error"
  else .ok none

/-- FirestoreService.get_project: document fetch plus ownership check.
Returns ok none both when no document exists and when the owner differs;
it performs no write. -/
def fsGetProject (store : List (String × ProjectDoc)) (pid uid : String) :
    Except String (Option ProjectDoc) :=
  match lookupKey store pid with
  | none => .ok none
  | some d => fsGetProjectDoc d uid

/-- FirestoreService.add_scene: get_project (ownership + parse), append
the scene, update_project_stats, then full-document set(). -/
def fsAddScene (now : Timestamp) (p : ProjectDoc) (uid : String)
    (scene : SceneDoc) : Option ProjectDoc :=
  match fsGetProjectDoc p uid with
  | .error _ => none
  | .ok none => none
  | .ok (some proj) =>
    some (update_project_stats now { proj with scenes := proj.scenes ++ [scene] })

/-- UpdateSceneRequest (project_models.UpdateSceneRequest): every field
optional; FastAPI validates duration_seconds into (0, 30] before the
handler runs. -/
structure UpdateSceneRequest where
  title : Option String := none
  description : Option String := none
  duration_seconds : Option Rat := none
deriving DecidableEq, Repr

/-- Application of an UpdateSceneRequest to one scene: each field is
overwritten only when present in the request (the "if ... is not None"
chain in FirestoreService.update_scene). -/
def applySceneRequest (req : UpdateSceneRequest) (s : SceneDoc) : SceneDoc :=
  let s := match req.title with | some t => { s with title := t } | none => s
  let s := match req.description with | some d => { s with description := d } | none => s
  match req.duration_seconds with
  | some d => { s with duration_seconds := d }
  | none => s

/-- FirestoreService.update_scene: get_project (ownership + parse), apply
the request to the first matching scene, update_project_stats, full
set().  None when the project is inaccessible or the scene is missing. -/
def fsUpdateScene (now : Timestamp) (p : ProjectDoc) (uid sid : String)
    (req : UpdateSceneRequest) : Option ProjectDoc :=
  match fsGetProjectDoc p uid with
  | .error _ => none
  | .ok none => none
  | .ok (some proj) =>
    match updateFirstScene sid (applySceneRequest req) proj.scenes with
    | none => none
    | some scenes1 =>
      some (update_project_stats now { proj with scenes := scenes1 })

/-- FirestoreService.update_scene_job: raw-dict write of
scene['active_job'] = job.dict() on the first matching scene, then an
update() of scenes, updated_at and stats.last_activity — no stats
recomputation and no ownership check. -/
def fsUpdateSceneJob (now : Timestamp) (p : ProjectDoc) (sid : String)
    (job : ActiveJobDoc) : Option ProjectDoc :=
  (updateFirstScene sid (fun s => { s with active_job := some job }) p.scenes).map
    fun scenes1 =>
      { p with
        scenes := scenes1
        updated_at := now
        stats := { p.stats with last_activity := now } }

/-- FirestoreService.update_scene_assets: raw-dict write of
scene['assets'] = assets.dict() on the first matching scene, then
recompute stats.completed_scenes as the count of scenes with truthy
video_path AND truthy composition_path, and update() scenes, updated_at,
stats.completed_scenes, stats.last_activity. -/
def fsUpdateSceneAssets (now : Timestamp) (p : ProjectDoc) (sid : String)
    (assets : AssetsDoc) : Option ProjectDoc :=
  (updateFirstScene sid (fun s => { s with assets := assets }) p.scenes).map
    fun scenes1 =>
      { p with
        scenes := scenes1
        updated_at := now
        stats :=
          { p.stats with
            completed_scenes :=
              (scenes1.countP (fun s =>
                strTruthy s.assets.video_path &&
                strTruthy s.assets.composition_path) : Int),
            last_activity := now } }

/-- FirestoreService.update_project: metadata-only update of name,
description, updated_at and stats.last_activity after an ownership
check; scenes and the other stats fields are untouched. -/
def fsUpdateProject (now : Timestamp) (p : ProjectDoc) (uid : String)
    (name desc : Option String) : Option ProjectDoc :=
  match fsGetProjectDoc p uid with
  | .error _ => none
  | .ok none => none
  | .ok (some _) =>
    let p := match name with | some n => { p with name := n } | none => p
    let p := match desc with | some d => { p with description := some d } | none => p
    some
      { p with
        updated_at := now
        stats := { p.stats with last_activity := now } }

/-!
Job documents and the world state shared by the dispatch endpoints
(backend/app/routers/projects.py, backend/app/services/cloud_functions.py)
and the cloud-function executor (functions/project_functions.py).  The
genCalls and uploads counters record invocations of the external
generation capability (ReplicateHandler.generate_video) and of blob
uploads (FirebaseStorageService.upload_from_url); they exist to make
external side effects observable in the model.
-/

/-- Video generation job document (collection video_generation_jobs),
schema from CloudFunctionTrigger.trigger_video_generation and
project_functions.generate_video_for_scene. -/
structure VideoJobDoc where
  project_id : String
  scene_id : String
  user_id : String
  image_url : String
  prompt : String
  duration : Rat
  status : String
  created_at : Timestamp
  updated_at : Timestamp
  error_message : Option String := none
  video_url : Option String := none
deriving DecidableEq, Repr

/-- The composition object returned by
OpenAIHandler.generate_scene_composition; the executor reads its
description, styling and animation keys (with empty-string defaults). -/
structure CompMeta where
  description : String := ""
  styling : String := ""
  animation : String := ""
deriving DecidableEq, Repr

/-- Composition generation job document (collection
composition_generation_jobs), schema from
CloudFunctionTrigger.trigger_composition_generation; the executor adds
the composition key on completion. -/
structure CompJobDoc where
  project_id : String
  scene_id : String
  user_id : String
  status : String
  prompt : Option String := none
  created_at : Timestamp
  updated_at : Timestamp
  error_message : Option String := none
  composition : Option CompMeta := none
deriving DecidableEq, Repr

/-- The persistent state touched by dispatch and execution: the projects
collection, the two job collections, and counters of external calls. -/
structure World where
  projects : List (String × ProjectDoc)
  video_jobs : List (String × VideoJobDoc) := []
  composition_jobs : List (String × CompJobDoc) := []
  genCalls : Nat := 0
  uploads : Nat := 0
deriving DecidableEq, Repr

/-- CloudFunctionTrigger.trigger_video_generation: create a new job
document with status pending under a freshly generated uuid (passed in as
jobId) and return that id. -/
def triggerVideoGeneration (now : Timestamp) (w : World)
    (jobId pid sid uid imageUrl prompt : String) (duration : Rat) :
    World × String :=
  let doc : VideoJobDoc :=
    { project_id := pid, scene_id := sid, user_id := uid,
      image_url := imageUrl, prompt := prompt, duration := duration,
      status := "pending", created_at := now, updated_at := now }
  ({ w with video_jobs := setKey w.video_jobs jobId doc }, jobId)

/-- CloudFunctionTrigger.trigger_composition_generation: create a new job
document with status pending under a freshly generated uuid; the prompt
key is only added when custom_prompt is truthy. -/
def triggerCompositionGeneration (now : Timestamp) (w : World)
    (jobId pid sid uid : String) (customPrompt : Option String) :
    World × String :=
  let doc : CompJobDoc :=
    { project_id := pid, scene_id := sid, user_id := uid,
      status := "pending",
      prompt :=
        match customPrompt with
        | some m => if m.isEmpty then none else some m
        | none => none,
      created_at := now, updated_at := now }
  ({ w with composition_jobs := setKey w.composition_jobs jobId doc }, jobId)

/-- GenerateVideoRequest (project_models.GenerateVideoRequest): the
declared fields are exactly scene_id and force_regenerate; the handler
additionally reads request.image_url, request.prompt and
request.duration, which do not exist on this model. -/
structure GenerateVideoRequest where
  scene_id : String
  force_regenerate : Bool := false
deriving DecidableEq, Repr

/-- GenerateVideoResponse (project_models.GenerateVideoResponse). -/
structure GenerateVideoResponse where
  success : Bool
  job_id : String
  scene_id : String
  message : Option String := none
deriving DecidableEq, Repr

/-- HTTP error results of a handler: (status code, detail). -/
abbrev HttpError := Nat × String

/-- The detail string of the HTTPException produced when the
generate_video handler evaluates request.image_url: GenerateVideoRequest
declares no such field, so pydantic raises AttributeError, which the
catch-all except converts to a 500 with str(e). -/
def videoRequestAttrError : String :=
  "object GenerateVideoRequest has no attribute image_url"

/-- FirestoreService.update_scene_job as invoked from the router: the
service re-reads the stored document and the handler ignores the boolean
result, so a failed update leaves the world unchanged. -/
def worldFsUpdateSceneJob (now : Timestamp) (w : World) (pid sid : String)
    (job : ActiveJobDoc) : World :=
  match (lookupKey w.projects pid).bind
      (fun d => fsUpdateSceneJob now d sid job) with
  | none => w
  | some d1 => { w with projects := setKey w.projects pid d1 }

/-- Handler get_project (routers/projects.py): 404 "Project not found"
both when no document exists and when the requester is not the owner
(the service returns None in both cases); a validation failure surfaces
as a 500.  The ProjectResponse wrapper only adds an empty signed_urls
map and is omitted. -/
def getProjectEndpoint (store : List (String × ProjectDoc)) (pid uid : String) :
    Except HttpError ProjectDoc :=
  match fsGetProject store pid uid with
  | .error e => .error (500, e)
  | .ok none => .error (404, "Project not found")
  | .ok (some proj) => .ok proj

/-- Handler generate_video (routers/projects.py): ownership check via
get_project, scene lookup, the active-job conflict check (unless
force_regenerate), the active_job write, then the trigger call — which
dies on the undefined request attributes before any job document is
created.  jobIdA is the uuid generated for the ActiveJob. -/
def generateVideo (now : Timestamp) (w : World) (pid sid uid : String)
    (req : GenerateVideoRequest) (jobIdA : String) :
    World × Except HttpError GenerateVideoResponse :=
  match fsGetProject w.projects pid uid with
  | .error e => (w, .error (500, e))
  | .ok none => (w, .error (404, "Project not found"))
  | .ok (some proj) =>
    match proj.scenes.find? (fun s => s.id == sid) with
    | none => (w, .error (404, "Scene not found"))
    | some scene =>
      let reject :=
        match scene.active_job with
        | some aj =>
          !req.force_regenerate &&
            (aj.status == "queued" || aj.status == "processing")
        | none => false
      if reject then
        match scene.active_job with
        | some aj =>
          (w, .ok { success := false, job_id := aj.job_id, scene_id := sid,
                    message := some "Video generation already in progress" })
        | none => (w, .error (500, "unreachable"))
      else
        let aj : ActiveJobDoc :=
          { job_id := jobIdA, type := "video", status := "queued",
            progress := 0, started_at := some now, last_update := some now }
        let w1 := worldFsUpdateSceneJob now w pid sid aj
        (w1, .error (500, videoRequestAttrError))

/-- Handler generate_composition (routers/projects.py): ownership check,
scene lookup, then — with no active-job conflict check and no force flag
at all — the active_job write, the trigger call creating the job
document under jobIdB, and a success response carrying jobIdA. -/
def generateComposition (now : Timestamp) (w : World) (pid sid uid : String)
    (customPrompt : Option String) (jobIdA jobIdB : String) :
    World × Except HttpError GenerateVideoResponse :=
  match fsGetProject w.projects pid uid with
  | .error e => (w, .error (500, e))
  | .ok none => (w, .error (404, "Project not found"))
  | .ok (some proj) =>
    match proj.scenes.find? (fun s => s.id == sid) with
    | none => (w, .error (404, "Scene not found"))
    | some _scene =>
      let aj : ActiveJobDoc :=
        { job_id := jobIdA, type := "composition", status := "queued",
          progress := 0, started_at := some now, last_update := some now }
      let w1 := worldFsUpdateSceneJob now w pid sid aj
      let (w2, _cloudJobId) :=
        triggerCompositionGeneration now w1 jobIdB pid sid uid customPrompt
      (w2, .ok { success := true, job_id := jobIdA, scene_id := sid,
                 message := some "Composition generation started" })

/-!
Job executors: functions/project_functions.generate_video_for_scene,
generate_composition_for_scene and _handle_error.  The external
generation call is passed in as a result value (ok payload, or error
message for a raised exception); each executor additionally returns the
ordered log of (status, progress) pairs it wrote to the scene's
active_job via update_scene_job_status, which is the progress trace the
temporal claims talk about.
-/

/-- ProjectFirestoreClient.update_scene_job_status lifted to the world:
look up the project document and apply the scene update; the executor
ignores the boolean result, and a missing project or scene leaves the
store unchanged (the client returns False). -/
def worldCfUpdateSceneJobStatus (now : Timestamp) (w : World)
    (pid sid jobType status jobId : String) (progress : Int)
    (errorMessage : Option String := none) : World :=
  match (lookupKey w.projects pid).bind
      (fun d => cfUpdateSceneJobStatus now d sid jobType status jobId progress errorMessage) with
  | none => w
  | some d1 => { w with projects := setKey w.projects pid d1 }

/-- ProjectFirestoreClient.update_scene_assets lifted to the world. -/
def worldCfUpdateSceneAssets (now : Timestamp) (w : World)
    (pid sid assetType storagePath : String) : World :=
  match (lookupKey w.projects pid).bind
      (fun d => cfUpdateSceneAssets now d sid assetType storagePath) with
  | none => w
  | some d1 => { w with projects := setKey w.projects pid d1 }

/-- ProjectFirestoreClient.update_job for the video_generation_jobs
collection.  Firestore update() raises when the document is missing; the
claims only exercise existing job documents, so the missing case is
modelled as leaving the collection unchanged. -/
def worldUpdateVideoJob (w : World) (jobId : String)
    (f : VideoJobDoc → VideoJobDoc) : World :=
  match lookupKey w.video_jobs jobId with
  | none => w
  | some j => { w with video_jobs := setKey w.video_jobs jobId (f j) }

/-- ProjectFirestoreClient.get_scene_from_project: fetch the project and
scan its scenes for the id. -/
def getSceneFromProject (w : World) (pid sid : String) : Option SceneDoc :=
  match lookupKey w.projects pid with
  | none => none
  | some d => d.scenes.find? (fun s => s.id == sid)

/-- project_functions._handle_error for a video job: mark the job record
failed with the error message, and when both ids are truthy also write a
failed active_job (progress 0) onto the scene.  Also returns the
(status, progress) entries this adds to the scene-status log. -/
def handleErrorVideo (now : Timestamp) (w : World)
    (jobId errorMessage pid sid : String) : World × List (String × Int) :=
  let w1 := worldUpdateVideoJob w jobId fun j =>
    { j with
      status := "failed"
      error_message := some errorMessage
      updated_at := now }
  if !pid.isEmpty && !sid.isEmpty then
    (worldCfUpdateSceneJobStatus now w1 pid sid "video" "failed" jobId 0
       (some errorMessage),
     [("failed", 0)])
  else (w1, [])

/-- The tail of the executor run once both ids are known present: job to
processing, scene status 10, scene fetch, status 30, the generation call,
then either the error handler or progress 70, upload for http URLs, the
asset write, job completion and status 100. -/
def generateVideoForSceneBody (now : Timestamp) (w : World) (jobId : String)
    (jobData : VideoJobDoc) (gen : Except String String) :
    World × List (String × Int) :=
  let pid := jobData.project_id
  let sid := jobData.scene_id
  let w1 := worldUpdateVideoJob w jobId fun j =>
    { j with status := "processing", updated_at := now }
  let w2 := worldCfUpdateSceneJobStatus now w1 pid sid "video" "processing" jobId 10
  let log10 := [("processing", (10 : Int))]
  match getSceneFromProject w2 pid sid with
  | none =>
    let (w3, logE) := handleErrorVideo now w2 jobId
      ("Scene " ++ sid ++ " not found in project " ++ pid) pid sid
    (w3, log10 ++ logE)
  | some _scene =>
    let w3 := worldCfUpdateSceneJobStatus now w2 pid sid "video" "processing" jobId 30
    let log30 := log10 ++ [("processing", (30 : Int))]
    let w4 := { w3 with genCalls := w3.genCalls + 1 }
    match gen with
    | .error msg =>
      let (w5, logE) := handleErrorVideo now w4 jobId msg pid sid
      (w5, log30 ++ logE)
    | .ok videoUrl =>
      if videoUrl.isEmpty then
        let (w5, logE) := handleErrorVideo now w4 jobId
          "No video URL returned from Replicate" pid sid
        (w5, log30 ++ logE)
      else
        let w5 := worldCfUpdateSceneJobStatus now w4 pid sid "video" "processing" jobId 70
        let log70 := log30 ++ [("processing", (70 : Int))]
        let (storagePath, w6) :=
          if strStartsWith videoUrl "http" then
            ("projects/" ++ pid ++ "/scenes/" ++ sid ++ "/video.mp4",
             { w5 with uploads := w5.uploads + 1 })
          else (videoUrl, w5)
        let w7 := worldCfUpdateSceneAssets now w6 pid sid "video" storagePath
        let w8 := worldUpdateVideoJob w7 jobId fun j =>
          { j with
            status := "completed"
            video_url := some storagePath
            updated_at := now }
        let w9 := worldCfUpdateSceneJobStatus now w8 pid sid "video" "completed" jobId 100
        (w9, log70 ++ [("completed", (100 : Int))])

/-- project_functions.generate_video_for_scene: the full executor run for
one trigger delivery.  jobData is the creation-event payload, gen the
outcome of the external ReplicateHandler.generate_video call.  Returns
the final world and the ordered list of (status, progress) pairs written
to the scene's active_job. -/
def generateVideoForScene (now : Timestamp) (w : World) (jobId : String)
    (jobData : VideoJobDoc) (gen : Except String String) :
    World × List (String × Int) :=
  let pid := jobData.project_id
  let sid := jobData.scene_id
  if pid.isEmpty || sid.isEmpty then
    handleErrorVideo now w jobId "Missing project_id or scene_id" pid sid
  else
    generateVideoForSceneBody now w jobId jobData gen

/-- ProjectFirestoreClient.update_job for the composition_generation_jobs
collection; as for the video collection, the missing-document case is
modelled as leaving the collection unchanged. -/
def worldUpdateCompJob (w : World) (jobId : String)
    (f : CompJobDoc → CompJobDoc) : World :=
  match lookupKey w.composition_jobs jobId with
  | none => w
  | some j => { w with composition_jobs := setKey w.composition_jobs jobId (f j) }

/-- ProjectFirestoreClient.update_scene_composition lifted to the
world. -/
def worldCfUpdateSceneComposition (now : Timestamp) (w : World)
    (pid sid desc styl anim : String) : World :=
  match (lookupKey w.projects pid).bind
      (fun d => cfUpdateSceneComposition now d sid desc styl anim) with
  | none => w
  | some d1 => { w with projects := setKey w.projects pid d1 }

/-- project_functions._handle_error with job_type composition: mark the
composition job record failed with the error message, and when both ids
are truthy also write a failed composition active_job (progress 0) onto
the scene. -/
def handleErrorComposition (now : Timestamp) (w : World)
    (jobId errorMessage pid sid : String) : World × List (String × Int) :=
  let w1 := worldUpdateCompJob w jobId fun j =>
    { j with
      status := "failed"
      error_message := some errorMessage
      updated_at := now }
  if !pid.isEmpty && !sid.isEmpty then
    (worldCfUpdateSceneJobStatus now w1 pid sid "composition" "failed" jobId 0
       (some errorMessage),
     [("failed", 0)])
  else (w1, [])

/-- The tail of the composition executor once both ids are known present:
job record to processing, scene status 10, the project fetch (raising
when it is missing), the scene fetch, status 30, the OpenAI call (ok none
models a falsy composition, raising), then either the error handler or
progress 70, the scene composition write, the JSON upload, the asset
write, job completion and status 100. -/
def generateCompositionForSceneBody (now : Timestamp) (w : World)
    (jobId : String) (jobData : CompJobDoc)
    (gen : Except String (Option CompMeta)) : World × List (String × Int) :=
  let pid := jobData.project_id
  let sid := jobData.scene_id
  let w1 := worldUpdateCompJob w jobId fun j =>
    { j with status := "processing", updated_at := now }
  let w2 := worldCfUpdateSceneJobStatus now w1 pid sid "composition" "processing" jobId 10
  let log10 := [("processing", (10 : Int))]
  match lookupKey w2.projects pid with
  | none =>
    let (w3, logE) := handleErrorComposition now w2 jobId
      ("Project " ++ pid ++ " not found") pid sid
    (w3, log10 ++ logE)
  | some _project =>
    match getSceneFromProject w2 pid sid with
    | none =>
      let (w3, logE) := handleErrorComposition now w2 jobId
        ("Scene " ++ sid ++ " not found in project " ++ pid) pid sid
      (w3, log10 ++ logE)
    | some _scene =>
      let w3 := worldCfUpdateSceneJobStatus now w2 pid sid "composition" "processing" jobId 30
      let log30 := log10 ++ [("processing", (30 : Int))]
      let w4 := { w3 with genCalls := w3.genCalls + 1 }
      match gen with
      | .error msg =>
        let (w5, logE) := handleErrorComposition now w4 jobId msg pid sid
        (w5, log30 ++ logE)
      | .ok none =>
        let (w5, logE) := handleErrorComposition now w4 jobId
          "No composition returned from OpenAI" pid sid
        (w5, log30 ++ logE)
      | .ok (some comp) =>
        let w5 := worldCfUpdateSceneJobStatus now w4 pid sid "composition" "processing" jobId 70
        let w6 := worldCfUpdateSceneComposition now w5 pid sid
          comp.description comp.styling comp.animation
        let w7 := { w6 with uploads := w6.uploads + 1 }
        let storagePath := "projects/" ++ pid ++ "/scenes/" ++ sid ++ "/composition.json"
        let w8 := worldCfUpdateSceneAssets now w7 pid sid "composition" storagePath
        let w9 := worldUpdateCompJob w8 jobId fun j =>
          { j with status := "completed", composition := some comp, updated_at := now }
        let wA := worldCfUpdateSceneJobStatus now w9 pid sid "composition" "completed" jobId 100
        (wA, log30 ++ [("processing", (70 : Int)), ("completed", (100 : Int))])

/-- project_functions.generate_composition_for_scene: the full executor
run for one trigger delivery.  gen is the outcome of the external
OpenAIHandler.generate_scene_composition call.  The guard branch calls
_handle_error without a job_type argument, which defaults to video, so a
payload with missing ids is (mis)recorded through the video handler. -/
def generateCompositionForScene (now : Timestamp) (w : World)
    (jobId : String) (jobData : CompJobDoc)
    (gen : Except String (Option CompMeta)) : World × List (String × Int) :=
  let pid := jobData.project_id
  let sid := jobData.scene_id
  if pid.isEmpty || sid.isEmpty then
    handleErrorVideo now w jobId "Missing project_id or scene_id" pid sid
  else
    generateCompositionForSceneBody now w jobId jobData gen

/-!
Live update channel: backend/app/routers/storyboards.scene_update_generator.
The generator polls db.get_scenes_by_storyboard every cycle, computes each
scene's observable state tuple, compares it to the last emitted tuple for
that scene id (an in-memory dict scoped to the connection, initially
empty), emits a scene_update frame on any difference, and always emits a
keepalive frame at the end of the cycle.
-/

/-- Legacy storyboard scene as read by the SSE loop.  Modelled from the
spec: the storyboard_models module that declares StoryboardScene is not
part of the source tree; the fields here are exactly those the generator
reads (state, generation_status.image, generation_status.video,
image_url, video_url, error_message), matching the observable state tuple
of the spec. -/
structure SBScene where
  id : String
  state : String
  image_status : String
  video_status : String
  image_url : Option String := none
  video_url : Option String := none
  error_message : Option String := none
deriving DecidableEq, Repr

/-- The current_state dict the generator builds per scene per cycle. -/
structure ObsState where
  state : String
  image_status : String
  video_status : String
  image_url : Option String
  video_url : Option String
  error : Option String
deriving DecidableEq, Repr

/-- The observable state tuple of a scene. -/
def obsOf (s : SBScene) : ObsState :=
  { state := s.state, image_status := s.image_status,
    video_status := s.video_status, image_url := s.image_url,
    video_url := s.video_url, error := s.error_message }

/-- Frames yielded by the generator. -/
inductive SSEFrame where
  | connected
  | sceneUpdate (scene_id : String) (st : ObsState)
  | keepalive
deriving DecidableEq, Repr

/-- One pass over the scenes of a poll cycle, threading the last-states
dict: emit a scene_update exactly when the current tuple differs from the
stored one (a scene never seen compares different), and record the
emitted tuple. -/
def pollScenes : List SBScene → List (String × ObsState) →
    List SSEFrame × List (String × ObsState)
  | [], last => ([], last)
  | s :: rest, last =>
    let cur := obsOf s
    if lookupKey last s.id = some cur then pollScenes rest last
    else
      let (fs, last1) := pollScenes rest (setKey last s.id cur)
      (SSEFrame.sceneUpdate s.id cur :: fs, last1)

/-- One poll cycle: the change events followed by the keepalive frame. -/
def pollCycle (scenes : List SBScene) (last : List (String × ObsState)) :
    List SSEFrame × List (String × ObsState) :=
  let (fs, last1) := pollScenes scenes last
  (fs ++ [SSEFrame.keepalive], last1)

/-- The polling loop over a finite sequence of snapshots (one read of the
scene list per cycle). -/
def runCycles : List (List SBScene) → List (String × ObsState) → List SSEFrame
  | [], _ => []
  | sc :: rest, last =>
    let (fs, last1) := pollCycle sc last
    fs ++ runCycles rest last1

/-- scene_update_generator over a finite run: the initial connected frame,
then the poll cycles starting from an empty last-states dict. -/
def runSSE (snapshots : List (List SBScene)) : List SSEFrame :=
  SSEFrame.connected :: runCycles snapshots []

/-- The change events for one scene id, in emission order. -/
def updatesFor (sid : String) (frames : List SSEFrame) : List ObsState :=
  frames.filterMap fun f =>
    match f with
    | .sceneUpdate i st => if i = sid then some st else none
    | _ => none

/-- The sequence of tuples observed for one scene id across the run. -/
def observedFor (sid : String) (snapshots : List (List SBScene)) :
    List ObsState :=
  ((snapshots.map fun sc => (sc.filter (fun s => s.id = sid)).map obsOf)).flatten

/-- Deduplication of consecutive repeats relative to a starting value:
keeps exactly the elements that differ from the previously kept one. -/
def destutterFrom : Option ObsState → List ObsState → List ObsState
  | _, [] => []
  | last, a :: rest =>
    if last = some a then destutterFrom last rest
    else a :: destutterFrom (some a) rest

/-- Number of keepalive frames in a run. -/
def keepaliveCount (frames : List SSEFrame) : Nat :=
  frames.countP fun f => f == SSEFrame.keepalive

/-!
Stats-consistency transition system for the project aggregate: every
scene mutation either service performs, as one inductive type, so that
the invariant can be stated over arbitrary mutation traces starting from
a freshly created project.
-/

/-- One scene/project mutation, covering every write path of the backend
FirestoreService and of the cloud-function ProjectFirestoreClient that
the repository actually invokes. -/
inductive Mutation where
  | mAddScene (uid : String) (s : SceneDoc)
  | mEditScene (uid sid : String) (req : UpdateSceneRequest)
  | mEditProject (uid : String) (name desc : Option String)
  | mSetSceneJob (sid : String) (job : ActiveJobDoc)
  | mSetSceneAssets (sid : String) (assets : AssetsDoc)
  | mCfJobStatus (sid jobType status jobId : String) (progress : Int)
      (err : Option String)
  | mCfAssets (sid assetType path : String)
  | mCfComposition (sid desc styl anim : String)
deriving Repr

/-- Apply one mutation to the stored project document; a failed operation
(missing scene, ownership mismatch, validation error) writes nothing and
leaves the document unchanged. -/
def applyMutation (now : Timestamp) (p : ProjectDoc) : Mutation → ProjectDoc
  | .mAddScene uid s => (fsAddScene now p uid s).getD p
  | .mEditScene uid sid req => (fsUpdateScene now p uid sid req).getD p
  | .mEditProject uid name desc => (fsUpdateProject now p uid name desc).getD p
  | .mSetSceneJob sid job => (fsUpdateSceneJob now p sid job).getD p
  | .mSetSceneAssets sid assets => (fsUpdateSceneAssets now p sid assets).getD p
  | .mCfJobStatus sid jobType status jobId progress err =>
    (cfUpdateSceneJobStatus now p sid jobType status jobId progress err).getD p
  | .mCfAssets sid assetType path =>
    (cfUpdateSceneAssets now p sid assetType path).getD p
  | .mCfComposition sid desc styl anim =>
    (cfUpdateSceneComposition now p sid desc styl anim).getD p

/-- Apply a timestamped mutation trace in order. -/
def applyTrace (p : ProjectDoc) : List (Timestamp × Mutation) → ProjectDoc
  | [] => p
  | (t, m) :: rest => applyTrace (applyMutation t p m) rest

/-- The documented stats invariant: total_scenes is the number of scenes
and completed_scenes the number of complete scenes. -/
def statsInv (p : ProjectDoc) : Prop :=
  p.stats.total_scenes = (p.scenes.length : Int) ∧
  p.stats.completed_scenes = (p.scenes.countP is_scene_complete : Int)

/-!
Helper lemmas about the association-list and scene-list primitives.
-/

theorem lookupKey_setKey_self {α : Type} (l : List (String × α)) (k : String) (v : α) :
    lookupKey (setKey l k v) k = some v := by
  induction l with
  | nil => simp [lookupKey, setKey]
  | cons kv rest ih =>
    obtain ⟨k0, v0⟩ := kv
    by_cases h : k0 = k
    · simp [setKey, h, lookupKey]
    · simpa [setKey, h, lookupKey] using ih

theorem lookupKey_setKey_ne {α : Type} (l : List (String × α)) {k k2 : String}
    (v : α) (h : k ≠ k2) : lookupKey (setKey l k v) k2 = lookupKey l k2 := by
  induction l with
  | nil => simp [lookupKey, setKey, h]
  | cons kv rest ih =>
    obtain ⟨k0, v0⟩ := kv
    by_cases hk : k0 = k
    · subst hk
      simp [setKey, lookupKey, h]
    · by_cases hk2 : k0 = k2
      · simp [setKey, hk, lookupKey, hk2, Ne.symm h]
      · simpa [setKey, hk, lookupKey, hk2] using ih

theorem updateFirstScene_length {sid : String} {f : SceneDoc → SceneDoc} :
    ∀ {l l2 : List SceneDoc}, updateFirstScene sid f l = some l2 →
      l2.length = l.length := by
  intro l
  induction l with
  | nil => intro l2 h; simp [updateFirstScene] at h
  | cons s rest ih =>
    intro l2 h
    by_cases hs : s.id = sid
    · simp [updateFirstScene, hs] at h
      subst h; simp
    · simp [updateFirstScene, hs] at h
      obtain ⟨l3, h3, rfl⟩ := h
      simp [ih h3]

theorem updateFirstScene_countP {sid : String} {f : SceneDoc → SceneDoc}
    {pred : SceneDoc → Bool} (hf : ∀ s, pred (f s) = pred s) :
    ∀ {l l2 : List SceneDoc}, updateFirstScene sid f l = some l2 →
      l2.countP pred = l.countP pred := by
  intro l
  induction l with
  | nil => intro l2 h; simp [updateFirstScene] at h
  | cons s rest ih =>
    intro l2 h
    by_cases hs : s.id = sid
    · simp [updateFirstScene, hs] at h
      subst h; simp [List.countP_cons, hf]
    · simp [updateFirstScene, hs] at h
      obtain ⟨l3, h3, rfl⟩ := h
      simp [List.countP_cons, ih h3]

/-- Updates dicts that contain no whole-assets entry (every in-repo
caller of update_scene_in_project). -/
def noAssetsObj (us : List UpdEntry) : Bool :=
  us.all fun u =>
    match u with
    | .assetsObj _ => false
    | _ => true

theorem applyUpd_assets_of_not_assetsObj (s : SceneDoc) (u : UpdEntry)
    (h : (match u with | .assetsObj _ => false | _ => true) = true) :
    (applyUpd s u).assets = s.assets := by
  cases u <;> simp_all [applyUpd]

theorem applyUpds_assets_of_noAssetsObj {us : List UpdEntry}
    (h : noAssetsObj us = true) (s : SceneDoc) :
    (applyUpds s us).assets = s.assets := by
  induction us generalizing s with
  | nil => rfl
  | cons u rest ih =>
    simp only [noAssetsObj, List.all_cons, Bool.and_eq_true] at h
    simp only [applyUpds, List.foldl_cons]
    rw [show (List.foldl applyUpd (applyUpd s u) rest) = applyUpds (applyUpd s u) rest from rfl]
    rw [ih h.2, applyUpd_assets_of_not_assetsObj s u h.1]

theorem updAssetsTrigger_of_noAssetsObj {us : List UpdEntry}
    (h : noAssetsObj us = true) : updAssetsTrigger us = false := by
  induction us with
  | nil => rfl
  | cons u rest ih =>
    simp only [noAssetsObj, List.all_cons, Bool.and_eq_true] at h
    simp only [updAssetsTrigger, List.any_cons, Bool.or_eq_false_iff]
    constructor
    · cases u <;> simp_all
    · exact ih h.2

theorem is_scene_complete_congr {s1 s2 : SceneDoc} (h : s1.assets = s2.assets) :
    is_scene_complete s1 = is_scene_complete s2 := by
  simp [is_scene_complete, h]

theorem statsInv_update_project_stats (now : Timestamp) (p : ProjectDoc) :
    statsInv (update_project_stats now p) :=
  ⟨rfl, rfl⟩

theorem statsInv_cfUpdateSceneInProject {now : Timestamp} {p p2 : ProjectDoc}
    {sid : String} {us : List UpdEntry} (hus : noAssetsObj us = true)
    (hp : statsInv p) (h : cfUpdateSceneInProject now p sid us = some p2) :
    statsInv p2 := by
  unfold cfUpdateSceneInProject at h
  cases hfind : updateFirstScene sid (fun s => applyUpds s us) p.scenes with
  | none => rw [hfind] at h; exact absurd h (by simp)
  | some scenes1 =>
    rw [hfind] at h
    simp only [updAssetsTrigger_of_noAssetsObj hus, if_neg (by simp : ¬False)] at h
    rw [if_neg (by simp)] at h
    cases h
    refine ⟨?_, ?_⟩
    · simpa [updateFirstScene_length hfind] using hp.1
    · have hc : scenes1.countP is_scene_complete = p.scenes.countP is_scene_complete :=
        updateFirstScene_countP
          (fun s => is_scene_complete_congr (applyUpds_assets_of_noAssetsObj hus s)) hfind
      simpa [hc] using hp.2

theorem updateFirstScene_map {β : Type} {sid : String} {f : SceneDoc → SceneDoc}
    {g : SceneDoc → β} (hg : ∀ s, g (f s) = g s) :
    ∀ {l l2 : List SceneDoc}, updateFirstScene sid f l = some l2 →
      l2.map g = l.map g := by
  intro l
  induction l with
  | nil => intro l2 h; simp [updateFirstScene] at h
  | cons s rest ih =>
    intro l2 h
    by_cases hs : s.id = sid
    · simp [updateFirstScene, hs] at h
      subst h; simp [hg]
    · simp [updateFirstScene, hs] at h
      obtain ⟨l3, h3, rfl⟩ := h
      simp [ih h3]

theorem updateFirstScene_find {sid : String} {f : SceneDoc → SceneDoc}
    (hid : ∀ s, (f s).id = s.id) :
    ∀ {l l2 : List SceneDoc}, updateFirstScene sid f l = some l2 →
      l2.find? (fun s => s.id == sid) = (l.find? (fun s => s.id == sid)).map f := by
  intro l
  induction l with
  | nil => intro l2 h; simp [updateFirstScene] at h
  | cons s rest ih =>
    intro l2 h
    by_cases hs : s.id = sid
    · simp [updateFirstScene, hs] at h
      subst h
      simp [List.find?_cons, hid, hs]
    · simp [updateFirstScene, hs] at h
      obtain ⟨l3, h3, rfl⟩ := h
      simp [List.find?_cons, hs, ih h3]

theorem updateFirstScene_of_find {sid : String} {f : SceneDoc → SceneDoc} :
    ∀ {l : List SceneDoc} {sc : SceneDoc},
      l.find? (fun s => s.id == sid) = some sc →
      ∃ l2, updateFirstScene sid f l = some l2 := by
  intro l
  induction l with
  | nil => intro sc h; simp at h
  | cons s rest ih =>
    intro sc h
    by_cases hs : s.id = sid
    · exact ⟨f s :: rest, by simp [updateFirstScene, hs]⟩
    · have hb : (s.id == sid) = false := by simp [hs]
      simp only [List.find?_cons, hb] at h
      obtain ⟨l3, h3⟩ := ih h
      exact ⟨s :: l3, by simp [updateFirstScene, hs, h3]⟩

theorem applyUpd_id (s : SceneDoc) (u : UpdEntry) : (applyUpd s u).id = s.id := by
  cases u <;> rfl

theorem applyUpds_id (us : List UpdEntry) : ∀ s, (applyUpds s us).id = s.id := by
  induction us with
  | nil => intro s; rfl
  | cons u rest ih =>
    intro s
    simp only [applyUpds, List.foldl_cons]
    rw [show (List.foldl applyUpd (applyUpd s u) rest) = applyUpds (applyUpd s u) rest from rfl]
    rw [ih (applyUpd s u), applyUpd_id]

/-- Behaviour of update_scene_in_project on a project that does contain
the scene, for updates dicts without a whole-assets entry: the write
succeeds, only the matched scene changes, stats keep everything except
last_activity, and the id/assets view of the scene list is untouched. -/
theorem cfUpdateSceneInProject_spec {now : Timestamp} {d : ProjectDoc}
    {sid : String} {us : List UpdEntry} {sc : SceneDoc}
    (hus : noAssetsObj us = true)
    (h4 : d.scenes.find? (fun s => s.id == sid) = some sc) :
    ∃ scenes1,
      updateFirstScene sid (fun s => applyUpds s us) d.scenes = some scenes1 ∧
      cfUpdateSceneInProject now d sid us =
        some { d with
               scenes := scenes1
               updated_at := now
               stats := { d.stats with last_activity := now } } ∧
      scenes1.find? (fun s => s.id == sid) = some (applyUpds sc us) ∧
      scenes1.map (fun s => (s.id, s.assets)) =
        d.scenes.map (fun s => (s.id, s.assets)) := by
  obtain ⟨scenes1, h1⟩ :=
    @updateFirstScene_of_find sid (fun s => applyUpds s us) d.scenes sc h4
  refine ⟨scenes1, h1, ?_, ?_, ?_⟩
  · unfold cfUpdateSceneInProject
    rw [h1, updAssetsTrigger_of_noAssetsObj hus]
    rfl
  · rw [updateFirstScene_find (fun s => applyUpds_id us s) h1, h4]
    rfl
  · exact updateFirstScene_map
      (fun s => by
        simp [applyUpds_assets_of_noAssetsObj hus, applyUpds_id us s]) h1

theorem worldCfUpdateSceneJobStatus_eq {now : Timestamp} {w : World}
    {pid sid jt st jid : String} {prog : Int} {err : Option String}
    {d d1 : ProjectDoc} (h3 : lookupKey w.projects pid = some d)
    (hcf : cfUpdateSceneJobStatus now d sid jt st jid prog err = some d1) :
    worldCfUpdateSceneJobStatus now w pid sid jt st jid prog err =
      { w with projects := setKey w.projects pid d1 } := by
  unfold worldCfUpdateSceneJobStatus
  rw [h3, Option.some_bind, hcf]

theorem worldCfUpdateSceneAssets_eq {now : Timestamp} {w : World}
    {pid sid assetType path : String} {d d1 : ProjectDoc}
    (h3 : lookupKey w.projects pid = some d)
    (hcf : cfUpdateSceneAssets now d sid assetType path = some d1) :
    worldCfUpdateSceneAssets now w pid sid assetType path =
      { w with projects := setKey w.projects pid d1 } := by
  unfold worldCfUpdateSceneAssets
  rw [h3, Option.some_bind, hcf]

theorem worldUpdateVideoJob_eq {w : World} {jobId : String}
    {f : VideoJobDoc → VideoJobDoc} {j : VideoJobDoc}
    (h : lookupKey w.video_jobs jobId = some j) :
    worldUpdateVideoJob w jobId f =
      { w with video_jobs := setKey w.video_jobs jobId (f j) } := by
  unfold worldUpdateVideoJob
  rw [h]

theorem statsInv_fsUpdateSceneJob {now : Timestamp} {p p2 : ProjectDoc}
    {sid : String} {job : ActiveJobDoc} (hp : statsInv p)
    (h : fsUpdateSceneJob now p sid job = some p2) : statsInv p2 := by
  unfold fsUpdateSceneJob at h
  cases hfind : updateFirstScene sid
      (fun s => { s with active_job := some job }) p.scenes with
  | none => rw [hfind] at h; exact absurd h (by simp)
  | some scenes1 =>
    rw [hfind] at h
    cases h
    refine ⟨?_, ?_⟩
    · simpa [updateFirstScene_length hfind] using hp.1
    · have hc := @updateFirstScene_countP sid
        (fun s => { s with active_job := some job }) is_scene_complete
        (fun s => is_scene_complete_congr rfl) p.scenes scenes1 hfind
      simpa [hc] using hp.2

theorem statsInv_fsUpdateSceneAssets {now : Timestamp} {p p2 : ProjectDoc}
    {sid : String} {assets : AssetsDoc} (hp : statsInv p)
    (h : fsUpdateSceneAssets now p sid assets = some p2) : statsInv p2 := by
  unfold fsUpdateSceneAssets at h
  cases hfind : updateFirstScene sid
      (fun s => { s with assets := assets }) p.scenes with
  | none => rw [hfind] at h; exact absurd h (by simp)
  | some scenes1 =>
    rw [hfind] at h
    cases h
    refine ⟨?_, rfl⟩
    simpa [updateFirstScene_length hfind] using hp.1

theorem statsInv_applyMutation (now : Timestamp) (p : ProjectDoc) (m : Mutation)
    (hp : statsInv p) : statsInv (applyMutation now p m) := by
  cases m with
  | mAddScene uid s =>
    simp only [applyMutation, fsAddScene]
    cases hg : fsGetProjectDoc p uid with
    | error e => simpa using hp
    | ok o =>
      cases o with
      | none => simpa using hp
      | some proj =>
        simpa using statsInv_update_project_stats now
          { proj with scenes := proj.scenes ++ [s] }
  | mEditScene uid sid req =>
    simp only [applyMutation, fsUpdateScene]
    cases hg : fsGetProjectDoc p uid with
    | error e => simpa using hp
    | ok o =>
      cases o with
      | none => simpa using hp
      | some proj =>
        cases hfind : updateFirstScene sid (applySceneRequest req) proj.scenes with
        | none => simp only [hfind]; simpa using hp
        | some scenes1 =>
          simp only [hfind]
          simpa using statsInv_update_project_stats now
            { proj with scenes := scenes1 }
  | mEditProject uid name desc =>
    simp only [applyMutation, fsUpdateProject]
    cases hg : fsGetProjectDoc p uid with
    | error e => simpa using hp
    | ok o =>
      cases o with
      | none => simpa using hp
      | some proj =>
        cases name <;> cases desc <;> simpa [statsInv] using hp
  | mSetSceneJob sid job =>
    simp only [applyMutation]
    cases h : fsUpdateSceneJob now p sid job with
    | none => simpa using hp
    | some p2 => simpa using statsInv_fsUpdateSceneJob hp h
  | mSetSceneAssets sid assets =>
    simp only [applyMutation]
    cases h : fsUpdateSceneAssets now p sid assets with
    | none => simpa using hp
    | some p2 => simpa using statsInv_fsUpdateSceneAssets hp h
  | mCfJobStatus sid jobType status jobId progress err =>
    simp only [applyMutation]
    cases h : cfUpdateSceneJobStatus now p sid jobType status jobId progress err with
    | none => simpa using hp
    | some p2 =>
      simp only [Option.getD_some]
      simp only [cfUpdateSceneJobStatus] at h
      refine statsInv_cfUpdateSceneInProject ?_ hp h
      rfl
  | mCfAssets sid assetType path =>
    simp only [applyMutation]
    cases h : cfUpdateSceneAssets now p sid assetType path with
    | none => simpa using hp
    | some p2 =>
      simp only [Option.getD_some]
      simp only [cfUpdateSceneAssets] at h
      split at h
      · refine statsInv_cfUpdateSceneInProject ?_ hp h
        rfl
      · refine statsInv_cfUpdateSceneInProject ?_ hp h
        rfl
  | mCfComposition sid desc styl anim =>
    simp only [applyMutation]
    cases h : cfUpdateSceneComposition now p sid desc styl anim with
    | none => simpa using hp
    | some p2 =>
      simp only [Option.getD_some]
      simp only [cfUpdateSceneComposition] at h
      refine statsInv_cfUpdateSceneInProject ?_ hp h
      rfl

theorem statsInv_applyTrace (p : ProjectDoc) (hp : statsInv p)
    (tr : List (Timestamp × Mutation)) : statsInv (applyTrace p tr) := by
  induction tr generalizing p with
  | nil => exact hp
  | cons tm rest ih =>
    exact ih _ (statsInv_applyMutation tm.1 p tm.2 hp)

theorem worldCfUpdateSceneJobStatus_fields (now : Timestamp) (w : World)
    (pid sid jt st jid : String) (prog : Int) (err : Option String) :
    (worldCfUpdateSceneJobStatus now w pid sid jt st jid prog err).video_jobs
        = w.video_jobs ∧
    (worldCfUpdateSceneJobStatus now w pid sid jt st jid prog err).composition_jobs
        = w.composition_jobs ∧
    (worldCfUpdateSceneJobStatus now w pid sid jt st jid prog err).genCalls
        = w.genCalls ∧
    (worldCfUpdateSceneJobStatus now w pid sid jt st jid prog err).uploads
        = w.uploads := by
  unfold worldCfUpdateSceneJobStatus
  cases (lookupKey w.projects pid).bind
      (fun d => cfUpdateSceneJobStatus now d sid jt st jid prog err) with
  | none => exact ⟨rfl, rfl, rfl, rfl⟩
  | some d1 => exact ⟨rfl, rfl, rfl, rfl⟩

theorem worldCfUpdateSceneAssets_fields (now : Timestamp) (w : World)
    (pid sid assetType path : String) :
    (worldCfUpdateSceneAssets now w pid sid assetType path).video_jobs
        = w.video_jobs ∧
    (worldCfUpdateSceneAssets now w pid sid assetType path).composition_jobs
        = w.composition_jobs ∧
    (worldCfUpdateSceneAssets now w pid sid assetType path).genCalls
        = w.genCalls ∧
    (worldCfUpdateSceneAssets now w pid sid assetType path).uploads
        = w.uploads := by
  unfold worldCfUpdateSceneAssets
  cases (lookupKey w.projects pid).bind
      (fun d => cfUpdateSceneAssets now d sid assetType path) with
  | none => exact ⟨rfl, rfl, rfl, rfl⟩
  | some d1 => exact ⟨rfl, rfl, rfl, rfl⟩

theorem worldFsUpdateSceneJob_fields (now : Timestamp) (w : World)
    (pid sid : String) (job : ActiveJobDoc) :
    (worldFsUpdateSceneJob now w pid sid job).video_jobs = w.video_jobs ∧
    (worldFsUpdateSceneJob now w pid sid job).composition_jobs = w.composition_jobs ∧
    (worldFsUpdateSceneJob now w pid sid job).genCalls = w.genCalls ∧
    (worldFsUpdateSceneJob now w pid sid job).uploads = w.uploads := by
  unfold worldFsUpdateSceneJob
  cases (lookupKey w.projects pid).bind (fun d => fsUpdateSceneJob now d sid job) with
  | none => exact ⟨rfl, rfl, rfl, rfl⟩
  | some d1 => exact ⟨rfl, rfl, rfl, rfl⟩

theorem worldUpdateVideoJob_fields (w : World) (jobId : String)
    (f : VideoJobDoc → VideoJobDoc) :
    (worldUpdateVideoJob w jobId f).projects = w.projects ∧
    (worldUpdateVideoJob w jobId f).composition_jobs = w.composition_jobs ∧
    (worldUpdateVideoJob w jobId f).genCalls = w.genCalls ∧
    (worldUpdateVideoJob w jobId f).uploads = w.uploads := by
  unfold worldUpdateVideoJob
  cases lookupKey w.video_jobs jobId with
  | none => exact ⟨rfl, rfl, rfl, rfl⟩
  | some j => exact ⟨rfl, rfl, rfl, rfl⟩

/-!
Executor evaluation lemmas.
-/

theorem getSceneFromProject_eq {w : World} {pid : String} (sid : String)
    {d : ProjectDoc} (h : lookupKey w.projects pid = some d) :
    getSceneFromProject w pid sid = d.scenes.find? (fun s => s.id == sid) := by
  unfold getSceneFromProject
  rw [h]

theorem generateVideoForScene_guard {now : Timestamp} {w : World}
    {jobId : String} {jobData : VideoJobDoc} {gen : Except String String}
    (hp : jobData.project_id.isEmpty = false)
    (hs : jobData.scene_id.isEmpty = false) :
    generateVideoForScene now w jobId jobData gen =
      generateVideoForSceneBody now w jobId jobData gen := by
  simp only [generateVideoForScene]
  rw [hp, hs]
  rfl

theorem handleErrorVideo_eq (now : Timestamp) (w : World) (jobId em pid sid : String)
    (hp : pid.isEmpty = false) (hs : sid.isEmpty = false) :
    handleErrorVideo now w jobId em pid sid =
      (worldCfUpdateSceneJobStatus now
        (worldUpdateVideoJob w jobId fun j =>
          { j with
            status := "failed"
            error_message := some em
            updated_at := now })
        pid sid "video" "failed" jobId 0 (some em),
       [("failed", 0)]) := by
  unfold handleErrorVideo
  rw [hp, hs]
  rfl

theorem worldUpdateCompJob_eq {w : World} {jobId : String}
    {f : CompJobDoc → CompJobDoc} {j : CompJobDoc}
    (h : lookupKey w.composition_jobs jobId = some j) :
    worldUpdateCompJob w jobId f =
      { w with composition_jobs := setKey w.composition_jobs jobId (f j) } := by
  unfold worldUpdateCompJob
  rw [h]

theorem worldUpdateCompJob_fields (w : World) (jobId : String)
    (f : CompJobDoc → CompJobDoc) :
    (worldUpdateCompJob w jobId f).projects = w.projects ∧
    (worldUpdateCompJob w jobId f).video_jobs = w.video_jobs ∧
    (worldUpdateCompJob w jobId f).genCalls = w.genCalls ∧
    (worldUpdateCompJob w jobId f).uploads = w.uploads := by
  unfold worldUpdateCompJob
  cases lookupKey w.composition_jobs jobId with
  | none => exact ⟨rfl, rfl, rfl, rfl⟩
  | some j => exact ⟨rfl, rfl, rfl, rfl⟩

theorem generateCompositionForScene_guard {now : Timestamp} {w : World}
    {jobId : String} {jobData : CompJobDoc}
    {gen : Except String (Option CompMeta)}
    (hp : jobData.project_id.isEmpty = false)
    (hs : jobData.scene_id.isEmpty = false) :
    generateCompositionForScene now w jobId jobData gen =
      generateCompositionForSceneBody now w jobId jobData gen := by
  simp only [generateCompositionForScene]
  rw [hp, hs]
  rfl

theorem handleErrorComposition_eq (now : Timestamp) (w : World)
    (jobId em pid sid : String)
    (hp : pid.isEmpty = false) (hs : sid.isEmpty = false) :
    handleErrorComposition now w jobId em pid sid =
      (worldCfUpdateSceneJobStatus now
        (worldUpdateCompJob w jobId fun j =>
          { j with
            status := "failed"
            error_message := some em
            updated_at := now })
        pid sid "composition" "failed" jobId 0 (some em),
       [("failed", 0)]) := by
  unfold handleErrorComposition
  rw [hp, hs]
  rfl

theorem worldCfUpdateSceneJobStatus_genCalls (now : Timestamp) (w : World)
    (pid sid jt st jid : String) (prog : Int) (err : Option String) :
    (worldCfUpdateSceneJobStatus now w pid sid jt st jid prog err).genCalls
      = w.genCalls :=
  (worldCfUpdateSceneJobStatus_fields now w pid sid jt st jid prog err).2.2.1

theorem worldCfUpdateSceneAssets_genCalls (now : Timestamp) (w : World)
    (pid sid assetType path : String) :
    (worldCfUpdateSceneAssets now w pid sid assetType path).genCalls
      = w.genCalls :=
  (worldCfUpdateSceneAssets_fields now w pid sid assetType path).2.2.1

theorem worldUpdateVideoJob_genCalls (w : World) (jobId : String)
    (f : VideoJobDoc → VideoJobDoc) :
    (worldUpdateVideoJob w jobId f).genCalls = w.genCalls :=
  (worldUpdateVideoJob_fields w jobId f).2.2.1

/-- After the executor's first two writes (job record to processing,
scene status 10), the target scene is still found in the project: the
status write only replaces the scene's active_job. -/
theorem executor_scene_lookup (now : Timestamp) (w : World) (jobId : String)
    (jobData : VideoJobDoc) {d : ProjectDoc} {sc : SceneDoc}
    (h3 : lookupKey w.projects jobData.project_id = some d)
    (h4 : d.scenes.find? (fun s => s.id == jobData.scene_id) = some sc) :
    getSceneFromProject (worldCfUpdateSceneJobStatus now
        (worldUpdateVideoJob w jobId fun j =>
          { j with status := "processing", updated_at := now })
        jobData.project_id jobData.scene_id "video" "processing" jobId 10 none)
      jobData.project_id jobData.scene_id =
    some (applyUpds sc [UpdEntry.activeJob
      (mkActiveJobStatus now "video" "processing" jobId 10 none)]) := by
  have hW1p : lookupKey (worldUpdateVideoJob w jobId fun j =>
      { j with status := "processing", updated_at := now }).projects
      jobData.project_id = some d := by
    rw [(worldUpdateVideoJob_fields w jobId _).1]
    exact h3
  obtain ⟨scenes1, hu1, hcf1, hfind1, hmap1⟩ :=
    @cfUpdateSceneInProject_spec now d jobData.scene_id
      [UpdEntry.activeJob (mkActiveJobStatus now "video" "processing" jobId 10 none)]
      sc rfl h4
  rw [worldCfUpdateSceneJobStatus_eq hW1p
    (show cfUpdateSceneJobStatus now d jobData.scene_id "video" "processing"
        jobId 10 none = some _ from hcf1)]
  rw [getSceneFromProject_eq jobData.scene_id (lookupKey_setKey_self _ _ _)]
  exact hfind1

/-!
Parse and request lemmas used by the dispatch and scene-edit claims.
-/

theorem parseScene_fields {s s2 : SceneDoc} (h : parseScene s = some s2) :
    s2.id = s.id ∧ s2.assets = s.assets ∧ s2.title = s.title ∧
    s2.description = s.description ∧
    s2.duration_seconds = s.duration_seconds := by
  unfold parseScene at h
  by_cases hd : 0 < s.duration_seconds ∧ s.duration_seconds ≤ 30
  · rw [if_pos hd] at h
    cases hj : s.active_job with
    | none =>
      rw [hj] at h
      have h2 : ({ s with active_job := none, extra := [] } : SceneDoc) = s2 :=
        Option.some.inj h
      subst h2
      exact ⟨rfl, rfl, rfl, rfl, rfl⟩
    | some j =>
      rw [hj] at h
      have h2 : (parseActiveJob j).map
          (fun j1 => ({ s with active_job := some j1, extra := [] } : SceneDoc)) =
            some s2 := h
      rw [Option.map_eq_some'] at h2
      obtain ⟨j1, hj1, hs2⟩ := h2
      subst hs2
      exact ⟨rfl, rfl, rfl, rfl, rfl⟩
  · rw [if_neg hd] at h
    exact absurd h (by simp)

theorem parseScenes_map_eq {β : Type} {g : SceneDoc → β}
    (hg : ∀ s s2, parseScene s = some s2 → g s2 = g s) :
    ∀ {l l2 : List SceneDoc}, parseScenes l = some l2 →
      l2.map g = l.map g := by
  intro l
  induction l with
  | nil => intro l2 h; cases h; rfl
  | cons a rest ih =>
    intro l2 h
    unfold parseScenes at h
    cases hf : parseScene a with
    | none => rw [hf] at h; exact absurd h (by simp)
    | some b =>
      rw [hf] at h
      cases hr : parseScenes rest with
      | none => rw [hr] at h; exact absurd h (by simp)
      | some bs =>
        rw [hr] at h
        cases Option.some.inj h
        simp [hg a b hf, ih hr]

theorem parseScenes_some_of_mem :
    ∀ {l l2 : List SceneDoc}, parseScenes l = some l2 → ∀ {a}, a ∈ l →
      ∃ b, parseScene a = some b := by
  intro l
  induction l with
  | nil => intro l2 h a ha; simp at ha
  | cons x rest ih =>
    intro l2 h a ha
    unfold parseScenes at h
    cases hf : parseScene x with
    | none => rw [hf] at h; exact absurd h (by simp)
    | some b =>
      rw [hf] at h
      cases hr : parseScenes rest with
      | none => rw [hr] at h; exact absurd h (by simp)
      | some bs =>
        rcases List.mem_cons.1 ha with rfl | ha2
        · exact ⟨b, hf⟩
        · exact ih hr ha2

theorem parseScenes_find {sid : String} :
    ∀ {l l2 : List SceneDoc}, parseScenes l = some l2 →
      l2.find? (fun s => s.id == sid) =
        (l.find? (fun s => s.id == sid)).bind parseScene := by
  intro l
  induction l with
  | nil => intro l2 h; cases h; rfl
  | cons a rest ih =>
    intro l2 h
    unfold parseScenes at h
    cases hf : parseScene a with
    | none => rw [hf] at h; exact absurd h (by simp)
    | some b =>
      rw [hf] at h
      cases hr : parseScenes rest with
      | none => rw [hr] at h; exact absurd h (by simp)
      | some bs =>
        rw [hr] at h
        cases Option.some.inj h
        have hid : b.id = a.id := (parseScene_fields hf).1
        by_cases hs : a.id = sid
        · simp [List.find?_cons, hid, hs, hf]
        · simp [List.find?_cons, hid, hs, ih hr]

theorem applySceneRequest_fields (req : UpdateSceneRequest) (s : SceneDoc) :
    (applySceneRequest req s).id = s.id ∧
    (applySceneRequest req s).assets = s.assets ∧
    (applySceneRequest req s).title = req.title.getD s.title ∧
    (applySceneRequest req s).description = req.description.getD s.description ∧
    (applySceneRequest req s).duration_seconds =
      req.duration_seconds.getD s.duration_seconds := by
  unfold applySceneRequest
  rcases req with ⟨t, d, u⟩
  cases t <;> cases d <;> cases u <;> exact ⟨rfl, rfl, rfl, rfl, rfl⟩

/-!
Lemmas for the live-update channel.
-/

/-- The last-seen tuple after observing a sequence, starting from an
initial stored value. -/
def lastSeen (init : Option ObsState) : List ObsState → Option ObsState
  | [] => init
  | a :: rest => lastSeen (some a) rest

theorem destutterFrom_cons (init : Option ObsState) (a : ObsState)
    (rest : List ObsState) :
    destutterFrom init (a :: rest) =
      if init = some a then destutterFrom init rest
      else a :: destutterFrom (some a) rest := rfl

theorem lastSeen_cons (init : Option ObsState) (a : ObsState)
    (rest : List ObsState) :
    lastSeen init (a :: rest) = lastSeen (some a) rest := rfl

theorem destutterFrom_append (l1 l2 : List ObsState) :
    ∀ init, destutterFrom init (l1 ++ l2) =
      destutterFrom init l1 ++ destutterFrom (lastSeen init l1) l2 := by
  induction l1 with
  | nil => intro init; rfl
  | cons a rest ih =>
    intro init
    rw [List.cons_append, destutterFrom_cons, destutterFrom_cons, lastSeen_cons]
    by_cases h : init = some a
    · rw [if_pos h, if_pos h, ih init, h]
    · rw [if_neg h, if_neg h, ih (some a), List.cons_append]

theorem destutterFrom_head :
    ∀ (l : List ObsState) (init : Option ObsState) (b : ObsState),
      (destutterFrom init l).head? = some b → ¬ init = some b := by
  intro l
  induction l with
  | nil => intro init b h; simp [destutterFrom] at h
  | cons a rest ih =>
    intro init b h
    by_cases hi : init = some a
    · rw [destutterFrom_cons, if_pos hi] at h
      exact ih init b h
    · rw [destutterFrom_cons, if_neg hi] at h
      simp at h
      subst h
      exact hi

theorem destutterFrom_chain (l : List ObsState) :
    ∀ init, List.Chain' (fun a b => a ≠ b) (destutterFrom init l) := by
  induction l with
  | nil => intro init; exact List.chain'_nil
  | cons a rest ih =>
    intro init
    by_cases hi : init = some a
    · rw [destutterFrom_cons, if_pos hi]
      exact ih init
    · rw [destutterFrom_cons, if_neg hi]
      rw [List.chain'_cons']
      refine ⟨?_, ih (some a)⟩
      intro b hb hab
      exact destutterFrom_head rest (some a) b (Option.mem_def.mp hb) (by rw [hab])

theorem updatesFor_append (sid : String) (a b : List SSEFrame) :
    updatesFor sid (a ++ b) = updatesFor sid a ++ updatesFor sid b := by
  unfold updatesFor
  exact List.filterMap_append a b _

theorem keepaliveCount_append (a b : List SSEFrame) :
    keepaliveCount (a ++ b) = keepaliveCount a + keepaliveCount b := by
  unfold keepaliveCount
  exact List.countP_append _ _ _

theorem pollScenes_spec (sid : String) :
    ∀ (scenes : List SBScene) (last : List (String × ObsState)),
      updatesFor sid (pollScenes scenes last).1 =
        destutterFrom (lookupKey last sid)
          ((scenes.filter (fun s => s.id = sid)).map obsOf) ∧
      lookupKey (pollScenes scenes last).2 sid =
        lastSeen (lookupKey last sid)
          ((scenes.filter (fun s => s.id = sid)).map obsOf) ∧
      keepaliveCount (pollScenes scenes last).1 = 0 := by
  intro scenes
  induction scenes with
  | nil =>
    intro last
    exact ⟨rfl, rfl, rfl⟩
  | cons s rest ih =>
    intro last
    by_cases heq : lookupKey last s.id = some (obsOf s)
    · rw [show pollScenes (s :: rest) last = pollScenes rest last from by
        rw [pollScenes, if_pos heq]]
      by_cases hid : s.id = sid
      · subst hid
        obtain ⟨ih1, ih2, ih3⟩ := ih last
        have hfil : (s :: rest).filter (fun t => t.id = s.id) =
            s :: rest.filter (fun t => t.id = s.id) := by
          simp [List.filter_cons]
        refine ⟨?_, ?_, ih3⟩
        · rw [ih1, hfil, List.map_cons, destutterFrom_cons, if_pos heq]
        · rw [ih2, hfil, List.map_cons, lastSeen_cons, heq]
      · obtain ⟨ih1, ih2, ih3⟩ := ih last
        have hfil : (s :: rest).filter (fun t => t.id = sid) =
            rest.filter (fun t => t.id = sid) := by
          simp [List.filter_cons, hid]
        rw [hfil]
        exact ⟨ih1, ih2, ih3⟩
    · rw [show pollScenes (s :: rest) last =
          (SSEFrame.sceneUpdate s.id (obsOf s) ::
              (pollScenes rest (setKey last s.id (obsOf s))).1,
            (pollScenes rest (setKey last s.id (obsOf s))).2) from by
        rw [pollScenes, if_neg heq]]
      obtain ⟨ih1, ih2, ih3⟩ := ih (setKey last s.id (obsOf s))
      by_cases hid : s.id = sid
      · subst hid
        have hfil : (s :: rest).filter (fun t => t.id = s.id) =
            s :: rest.filter (fun t => t.id = s.id) := by
          simp [List.filter_cons]
        refine ⟨?_, ?_, ?_⟩
        · have hu : updatesFor s.id
              (SSEFrame.sceneUpdate s.id (obsOf s) ::
                (pollScenes rest (setKey last s.id (obsOf s))).1) =
              obsOf s :: updatesFor s.id
                (pollScenes rest (setKey last s.id (obsOf s))).1 := by
            simp [updatesFor]
          rw [hu, ih1, lookupKey_setKey_self, hfil, List.map_cons,
            destutterFrom_cons, if_neg heq]
        · rw [ih2, lookupKey_setKey_self, hfil, List.map_cons, lastSeen_cons]
        · have hb : (SSEFrame.sceneUpdate s.id (obsOf s) ==
              SSEFrame.keepalive) = false := rfl
          simpa [keepaliveCount, List.countP_cons, hb] using ih3
      · have hfil : (s :: rest).filter (fun t => t.id = sid) =
            rest.filter (fun t => t.id = sid) := by
          simp [List.filter_cons, hid]
        refine ⟨?_, ?_, ?_⟩
        · have hu : updatesFor sid
              (SSEFrame.sceneUpdate s.id (obsOf s) ::
                (pollScenes rest (setKey last s.id (obsOf s))).1) =
              updatesFor sid
                (pollScenes rest (setKey last s.id (obsOf s))).1 := by
            simp [updatesFor, hid]
          rw [hu, ih1, lookupKey_setKey_ne _ _ hid, hfil]
        · rw [ih2, lookupKey_setKey_ne _ _ hid, hfil]
        · have hb : (SSEFrame.sceneUpdate s.id (obsOf s) ==
              SSEFrame.keepalive) = false := rfl
          simpa [keepaliveCount, List.countP_cons, hb] using ih3

theorem runCycles_spec (sid : String) :
    ∀ (snapshots : List (List SBScene)) (last : List (String × ObsState)),
      updatesFor sid (runCycles snapshots last) =
        destutterFrom (lookupKey last sid) (observedFor sid snapshots) ∧
      keepaliveCount (runCycles snapshots last) = snapshots.length := by
  intro snapshots
  induction snapshots with
  | nil => intro last; exact ⟨rfl, rfl⟩
  | cons sc rest ih =>
    intro last
    obtain ⟨hp1, hp2, hp3⟩ := pollScenes_spec sid sc last
    have hrun : runCycles (sc :: rest) last =
        ((pollScenes sc last).1 ++ [SSEFrame.keepalive]) ++
          runCycles rest (pollScenes sc last).2 := by
      rw [runCycles, pollCycle]
    obtain ⟨ih1, ih2⟩ := ih (pollScenes sc last).2
    constructor
    · rw [hrun, updatesFor_append, updatesFor_append, ih1, hp1, hp2]
      have hobs : observedFor sid (sc :: rest) =
          (sc.filter (fun s => s.id = sid)).map obsOf ++ observedFor sid rest := by
        simp [observedFor]
      rw [hobs, destutterFrom_append]
      simp [updatesFor]
    · rw [hrun, keepaliveCount_append, keepaliveCount_append, hp3, ih2]
      have hk : keepaliveCount [SSEFrame.keepalive] = 1 := rfl
      rw [hk, List.length_cons]
      omega

/-!
Claim theorems.
-/

/-- Claim C1: for every project created by the backend and every sequence
of scene mutations performed on it by the backend FirestoreService
(add_scene, update_scene, update_project, update_scene_job,
update_scene_assets) or by the cloud-function ProjectFirestoreClient
(update_scene_job_status, update_scene_assets, update_scene_composition),
the stored stats satisfy stats.total_scenes = len(scenes) and
stats.completed_scenes = count of scenes for which is_scene_complete
holds, after every successful write. -/
theorem claim_C1_stats_consistency (pid name : String) (desc : Option String)
    (uid : String) (t0 : Timestamp) (tr : List (Timestamp × Mutation)) :
    statsInv (applyTrace (fsCreateProject pid name desc uid t0) tr) :=
  statsInv_applyTrace _ ⟨rfl, rfl⟩ tr

/-- A scene whose composition asset exists but whose video has not been
generated yet. -/
def c2Scene : SceneDoc :=
  { id := "s1", scene_number := 1, title := "Intro", description := "opening shot",
    duration_seconds := 5,
    assets := { composition_path := some "projects/p2/scenes/s1/composition.json" } }

def c2Project : ProjectDoc :=
  { id := "p2", name := "Demo", user_id := "u2", created_at := 0, updated_at := 0,
    scenes := [c2Scene],
    stats := { total_scenes := 1, completed_scenes := 0, last_activity := 0 } }

/-- Claim C2 (failing evaluation): when the executor records a generated
video through ProjectFirestoreClient.update_scene_assets, the scene's
nested assets object does NOT get video_path set — Python dict.update
stores the dotted key "assets.video_path" as a literal flat key — while
the sibling assets.composition_path keeps its value only because the
nested object is untouched entirely.  The claimed dot-path merge
semantics therefore fail on this write path. -/
theorem claim_C2_dot_key_written_flat :
    (cfUpdateSceneAssets 7 c2Project "s1" "video"
        "projects/p2/scenes/s1/video.mp4").map
        (fun p => p.scenes.map fun s =>
          (s.assets.video_path, s.assets.composition_path,
           lookupKey s.extra "assets.video_path")) =
      some [(none, some "projects/p2/scenes/s1/composition.json",
             some (FVal.s "projects/p2/scenes/s1/video.mp4"))] := by
  rfl

def c4Scene : SceneDoc :=
  { id := "s1", scene_number := 1, title := "Opening", description := "product shot",
    duration_seconds := 5 }

def c4Project : ProjectDoc :=
  { id := "p4", name := "Launch", user_id := "u4", created_at := 0, updated_at := 0,
    scenes := [c4Scene],
    stats := { total_scenes := 1, completed_scenes := 0, last_activity := 0 } }

def c4World : World := { projects := [("p4", c4Project)] }

/-- Claim C4 (failing evaluation): a video dispatch that passes every
precondition (project owned, scene exists, no active job) still returns a
500 — the handler reads request.image_url, request.prompt and
request.duration, none of which exist on GenerateVideoRequest — after it
has already written the scene's active_job, and before any Job Record is
created; no job id is returned and the video_jobs collection stays
empty. -/
theorem claim_C4_video_dispatch_crashes :
    (generateVideo 3 c4World "p4" "s1" "u4" { scene_id := "s1" } "jA").2 =
        .error (500, videoRequestAttrError) ∧
    (generateVideo 3 c4World "p4" "s1" "u4" { scene_id := "s1" } "jA").1.video_jobs
        = [] ∧
    (lookupKey (generateVideo 3 c4World "p4" "s1" "u4"
        { scene_id := "s1" } "jA").1.projects "p4").map
        (fun d => d.scenes.map fun s => s.active_job) =
      some [some { job_id := "jA", type := "video", status := "queued",
                   progress := 0, started_at := some 3, last_update := some 3,
                   error_message := none }] :=
  ⟨rfl, rfl, rfl⟩

/-- Claim C10: FirestoreService.get_project returns None both when no
project document exists under the id and when the stored project's owner
differs from the requesting user, without performing any write, and the
get_project endpoint maps both cases to the same 404 "Project not found"
response, so project existence is not revealed to non-owners. -/
theorem claim_C10_not_found_hides_ownership
    (store : List (String × ProjectDoc)) (pid uid : String)
    (h : lookupKey store pid = none ∨
      ∃ d, lookupKey store pid = some d ∧ d.user_id ≠ uid) :
    fsGetProject store pid uid = .ok none ∧
    getProjectEndpoint store pid uid = .error (404, "Project not found") := by
  have hget : fsGetProject store pid uid = .ok none := by
    rcases h with h | ⟨d, hd, hne⟩
    · unfold fsGetProject
      rw [h]
    · unfold fsGetProject
      rw [hd]
      unfold fsGetProjectDoc
      simp [hne]
  refine ⟨hget, ?_⟩
  unfold getProjectEndpoint
  rw [hget]

def c3ActiveJob : ActiveJobDoc :=
  { job_id := "j0", type := "composition", status := "processing", progress := 30,
    started_at := some 1, last_update := some 1 }

def c3Scene : SceneDoc :=
  { id := "s1", scene_number := 1, title := "Hook", description := "first frame",
    duration_seconds := 5, active_job := some c3ActiveJob }

def c3Project : ProjectDoc :=
  { id := "p3", name := "Ad", user_id := "u3", created_at := 0, updated_at := 0,
    scenes := [c3Scene],
    stats := { total_scenes := 1, completed_scenes := 0, last_activity := 0 } }

def c3Job0 : CompJobDoc :=
  { project_id := "p3", scene_id := "s1", user_id := "u3", status := "processing",
    created_at := 0, updated_at := 1 }

def c3World : World :=
  { projects := [("p3", c3Project)], composition_jobs := [("j0", c3Job0)] }

/-- Claim C3 is false as stated: a composition dispatch for a scene whose
active_job is of the same type and still processing, with no force flag
(the endpoint does not even accept one), is accepted — it returns
success with a fresh job id and creates a second pending Job Record, so
two records for the same (scene_id, composition) pair are simultaneously
in {pending, processing}. -/
theorem claim_C3_counterexample :
    (generateComposition 2 c3World "p3" "s1" "u3" none "j1" "j2").2 =
      .ok { success := true, job_id := "j1", scene_id := "s1",
            message := some "Composition generation started" } ∧
    ((generateComposition 2 c3World "p3" "s1" "u3" none "j1" "j2").1.composition_jobs.map
      (fun kv => (kv.1, kv.2.status))) = [("j0", "processing"), ("j2", "pending")] :=
  ⟨rfl, rfl⟩

/-- Claim C3 amended: only the VIDEO dispatch path enforces the
precondition — with an active_job in {queued, processing} and no
force_regenerate it returns the existing job id, creates no Job Record
and leaves all state unchanged; the COMPOSITION dispatch path performs no
active-job check (and has no force flag), always writing a fresh pending
Job Record and returning success. -/
theorem claim_C3_amended (now : Timestamp) (w : World) (pid sid uid : String)
    (req : GenerateVideoRequest) (jobIdA jobIdB : String)
    (customPrompt : Option String) (proj : ProjectDoc) (scene : SceneDoc)
    (aj : ActiveJobDoc)
    (h1 : fsGetProject w.projects pid uid = .ok (some proj))
    (h2 : proj.scenes.find? (fun s => s.id == sid) = some scene)
    (h3 : scene.active_job = some aj)
    (h4 : req.force_regenerate = false)
    (h5 : aj.status = "queued" ∨ aj.status = "processing") :
    generateVideo now w pid sid uid req jobIdA =
      (w, .ok { success := false, job_id := aj.job_id, scene_id := sid,
                message := some "Video generation already in progress" }) ∧
    (generateComposition now w pid sid uid customPrompt jobIdA jobIdB).2 =
      .ok { success := true, job_id := jobIdA, scene_id := sid,
            message := some "Composition generation started" } ∧
    lookupKey
        (generateComposition now w pid sid uid customPrompt jobIdA jobIdB).1.composition_jobs
        jobIdB =
      some { project_id := pid, scene_id := sid, user_id := uid,
             status := "pending",
             prompt :=
               match customPrompt with
               | some m => if m.isEmpty then none else some m
               | none => none,
             created_at := now, updated_at := now } := by
  have hb : (aj.status == "queued" || aj.status == "processing") = true := by
    rcases h5 with h | h <;> simp [h]
  refine ⟨?_, ?_, ?_⟩
  · simp only [generateVideo, h1, h2, h3, h4, hb, Bool.not_false, Bool.true_and,
      if_pos]
  · simp only [generateComposition, h1, h2]
  · simp only [generateComposition, h1, h2, triggerCompositionGeneration]
    exact lookupKey_setKey_self _ _ _

/-- Witness for the amended C3 at the concrete world: the video dispatch
is rejected with the existing job id j0 while the composition dispatch
succeeds and stores a second record under j2. -/
theorem claim_C3_amended_witness :
    generateVideo 2 c3World "p3" "s1" "u3" { scene_id := "s1" } "j1" =
      (c3World, .ok { success := false, job_id := "j0", scene_id := "s1",
                      message := some "Video generation already in progress" }) ∧
    (generateComposition 2 c3World "p3" "s1" "u3" none "j1" "j2").2 =
      .ok { success := true, job_id := "j1", scene_id := "s1",
            message := some "Composition generation started" } ∧
    lookupKey
        (generateComposition 2 c3World "p3" "s1" "u3" none "j1" "j2").1.composition_jobs
        "j2" =
      some { project_id := "p3", scene_id := "s1", user_id := "u3",
             status := "pending", prompt := none, created_at := 2,
             updated_at := 2 } :=
  claim_C3_amended 2 c3World "p3" "s1" "u3" { scene_id := "s1" } "j1" "j2" none
    _ _ _ rfl rfl rfl rfl (Or.inr rfl)

def c5Scene : SceneDoc :=
  { id := "s1", scene_number := 1, title := "Beach", description := "sunset",
    duration_seconds := 5,
    assets := { video_path := some "projects/p5/scenes/s1/video.mp4" } }

def c5Project : ProjectDoc :=
  { id := "p5", name := "Summer", user_id := "u5", created_at := 0, updated_at := 0,
    scenes := [c5Scene],
    stats := { total_scenes := 1, completed_scenes := 0, last_activity := 0 } }

/-- Claim C5 is false as stated: updating duration_seconds of a scene
whose assets.video_path is set changes the duration but leaves
assets.video_path exactly as it was — FirestoreService.update_scene
performs no invalidation of stale generated assets. -/
theorem claim_C5_counterexample :
    (fsUpdateScene 9 c5Project "u5" "s1"
        { duration_seconds := some 12 }).map
        (fun p => p.scenes.map fun s =>
          (s.duration_seconds, s.assets.video_path)) =
      some [(12, some "projects/p5/scenes/s1/video.mp4")] := by
  rfl

/-- Claim C5 amended: a user scene edit applies title, description and
duration_seconds exactly as requested, and never touches any scene's
assets — in particular a duration change does NOT clear assets.video_path
and resets no generation status. -/
theorem claim_C5_amended (now : Timestamp) (p : ProjectDoc) (uid sid : String)
    (req : UpdateSceneRequest) (p2 : ProjectDoc)
    (h : fsUpdateScene now p uid sid req = some p2) :
    p2.scenes.map (fun s => s.assets) = p.scenes.map (fun s => s.assets) ∧
    (p2.scenes.find? (fun s => s.id == sid)).map
        (fun s => (s.title, s.description, s.duration_seconds)) =
      (p.scenes.find? (fun s => s.id == sid)).map
        (fun s => (req.title.getD s.title, req.description.getD s.description,
                   req.duration_seconds.getD s.duration_seconds)) := by
  unfold fsUpdateScene at h
  cases hg : fsGetProjectDoc p uid with
  | error e => rw [hg] at h; exact absurd h (by simp)
  | ok o =>
    cases o with
    | none => rw [hg] at h; exact absurd h (by simp)
    | some proj =>
      simp only [hg] at h
      cases hu : updateFirstScene sid (applySceneRequest req) proj.scenes with
      | none => simp only [hu] at h; exact absurd h (by simp)
      | some scenes1 =>
        simp only [hu] at h
        cases h
        have hparse : parseProject p = some proj := by
          unfold fsGetProjectDoc at hg
          by_cases hown : p.user_id == uid
          · rw [if_pos hown] at hg
            cases hpp : parseProject p with
            | none => rw [hpp] at hg; exact absurd hg (by simp)
            | some pr =>
              rw [hpp] at hg
              simp at hg
              rw [hg]
          · rw [if_neg hown] at hg
            exact absurd hg (by simp)
        have hps : parseScenes p.scenes = some proj.scenes := by
          unfold parseProject at hparse
          cases hpp : parseScenes p.scenes with
          | none => rw [hpp] at hparse; exact absurd hparse (by simp)
          | some ss =>
            rw [hpp] at hparse
            simp at hparse
            rw [← hparse]
        constructor
        · have e1 : scenes1.map (fun s => s.assets) =
              proj.scenes.map (fun s => s.assets) :=
            updateFirstScene_map
              (fun s => (applySceneRequest_fields req s).2.1) hu
          have e2 : proj.scenes.map (fun s => s.assets) =
              p.scenes.map (fun s => s.assets) :=
            parseScenes_map_eq
              (fun s s2 hs => (parseScene_fields hs).2.1) hps
          exact e1.trans e2
        · have e1 : scenes1.find? (fun s => s.id == sid) =
              (proj.scenes.find? (fun s => s.id == sid)).map (applySceneRequest req) :=
            updateFirstScene_find
              (fun s => (applySceneRequest_fields req s).1) hu
          have e2 : proj.scenes.find? (fun s => s.id == sid) =
              (p.scenes.find? (fun s => s.id == sid)).bind parseScene :=
            parseScenes_find hps
          rw [show (update_project_stats now { proj with scenes := scenes1 }).scenes
              = scenes1 from rfl]
          rw [e1, e2]
          cases hf : p.scenes.find? (fun s => s.id == sid) with
          | none => rfl
          | some s =>
            obtain ⟨s2, hs2⟩ :=
              parseScenes_some_of_mem hps (List.mem_of_find?_eq_some hf)
            obtain ⟨-, -, ht, hd2, hdu⟩ := parseScene_fields hs2
            obtain ⟨-, -, at1, at2, at3⟩ := applySceneRequest_fields req s2
            simp [hs2, at1, at2, at3, ht, hd2, hdu]

def c5After : ProjectDoc :=
  { id := "p5", name := "Summer", user_id := "u5", created_at := 0, updated_at := 9,
    scenes := [{ id := "s1", scene_number := 1, title := "Beach",
                 description := "sunset", duration_seconds := 12,
                 assets := { video_path := some "projects/p5/scenes/s1/video.mp4" } }],
    stats := { total_scenes := 1, completed_scenes := 0, last_activity := 9 } }

/-- Witness for the amended C5 at the concrete project: the duration edit
keeps assets.video_path and writes the new duration. -/
theorem claim_C5_amended_witness :
    c5After.scenes.map (fun s => s.assets) =
      c5Project.scenes.map (fun s => s.assets) ∧
    (c5After.scenes.find? (fun s => s.id == "s1")).map
        (fun s => (s.title, s.description, s.duration_seconds)) =
      (c5Project.scenes.find? (fun s => s.id == "s1")).map
        (fun s =>
          (({ duration_seconds := some 12 } : UpdateSceneRequest).title.getD s.title,
           ({ duration_seconds := some 12 } : UpdateSceneRequest).description.getD s.description,
           ({ duration_seconds := some 12 } : UpdateSceneRequest).duration_seconds.getD s.duration_seconds)) :=
  claim_C5_amended 9 c5Project "u5" "s1" { duration_seconds := some 12 } c5After rfl

/-- The active_job status log of an executor run whose generation call
raises: 10, 30, then the failed reset to 0. -/
theorem executorRunLog_error (now : Timestamp) (w : World)
    (jobId : String) (jobData : VideoJobDoc) (msg : String)
    {d : ProjectDoc} {sc : SceneDoc}
    (hp : jobData.project_id.isEmpty = false)
    (hs : jobData.scene_id.isEmpty = false)
    (h3 : lookupKey w.projects jobData.project_id = some d)
    (h4 : d.scenes.find? (fun s => s.id == jobData.scene_id) = some sc) :
    (generateVideoForScene now w jobId jobData (.error msg)).2 =
      [("processing", 10), ("processing", 30), ("failed", 0)] := by
  rw [generateVideoForScene_guard hp hs]
  simp only [generateVideoForSceneBody]
  rw [executor_scene_lookup now w jobId jobData h3 h4]
  rw [handleErrorVideo_eq now _ jobId msg _ _ hp hs]
  rfl

/-- The status log when the generation call returns an empty URL. -/
theorem executorRunLog_ok_empty (now : Timestamp) (w : World)
    (jobId : String) (jobData : VideoJobDoc) (url : String)
    (hu : url.isEmpty = true) {d : ProjectDoc} {sc : SceneDoc}
    (hp : jobData.project_id.isEmpty = false)
    (hs : jobData.scene_id.isEmpty = false)
    (h3 : lookupKey w.projects jobData.project_id = some d)
    (h4 : d.scenes.find? (fun s => s.id == jobData.scene_id) = some sc) :
    (generateVideoForScene now w jobId jobData (.ok url)).2 =
      [("processing", 10), ("processing", 30), ("failed", 0)] := by
  rw [generateVideoForScene_guard hp hs]
  simp only [generateVideoForSceneBody]
  rw [executor_scene_lookup now w jobId jobData h3 h4]
  rw [hu]
  rw [handleErrorVideo_eq now _ jobId
    "No video URL returned from Replicate" _ _ hp hs]
  rfl

/-- The status log of a successful run: 10, 30, 70, then completed at
100. -/
theorem executorRunLog_ok (now : Timestamp) (w : World)
    (jobId : String) (jobData : VideoJobDoc) (url : String)
    (hu : url.isEmpty = false) {d : ProjectDoc} {sc : SceneDoc}
    (hp : jobData.project_id.isEmpty = false)
    (hs : jobData.scene_id.isEmpty = false)
    (h3 : lookupKey w.projects jobData.project_id = some d)
    (h4 : d.scenes.find? (fun s => s.id == jobData.scene_id) = some sc) :
    (generateVideoForScene now w jobId jobData (.ok url)).2 =
      [("processing", 10), ("processing", 30), ("processing", 70),
       ("completed", 100)] := by
  rw [generateVideoForScene_guard hp hs]
  simp only [generateVideoForSceneBody]
  rw [executor_scene_lookup now w jobId jobData h3 h4]
  rw [hu]
  cases hsw : strStartsWith url "http" with
  | true => rfl
  | false => rfl

/-- Claim C8: the ordered sequence of (status, progress) pairs the video
executor writes to the scene's active_job has non-decreasing progress
while status is processing, every completed entry carries progress 100,
and a successful run records exactly 10, 30, 70, then 100 at
completion. -/
theorem claim_C8_monotonic_progress (now : Timestamp) (w : World)
    (jobId : String) (jobData : VideoJobDoc) (gen : Except String String)
    (d : ProjectDoc) (sc : SceneDoc)
    (hp : jobData.project_id.isEmpty = false)
    (hs : jobData.scene_id.isEmpty = false)
    (h3 : lookupKey w.projects jobData.project_id = some d)
    (h4 : d.scenes.find? (fun s => s.id == jobData.scene_id) = some sc) :
    List.Chain' (fun a b => a.2 ≤ b.2)
      (((generateVideoForScene now w jobId jobData gen).2).filter
        (fun e => e.1 == "processing")) ∧
    (∀ e ∈ (generateVideoForScene now w jobId jobData gen).2,
        e.1 = "completed" → e.2 = 100) ∧
    (∀ url, url.isEmpty = false → gen = .ok url →
      (generateVideoForScene now w jobId jobData gen).2 =
        [("processing", 10), ("processing", 30), ("processing", 70),
         ("completed", 100)]) := by
  have hfil3 : List.filter (fun e => e.1 == "processing")
      ([("processing", 10), ("processing", 30), ("failed", 0)] :
        List (String × Int)) =
      [("processing", 10), ("processing", 30)] := rfl
  have hfil4 : List.filter (fun e => e.1 == "processing")
      ([("processing", 10), ("processing", 30), ("processing", 70),
        ("completed", 100)] : List (String × Int)) =
      [("processing", 10), ("processing", 30), ("processing", 70)] := rfl
  refine ⟨?_, ?_, ?_⟩
  · cases gen with
    | error msg =>
      rw [executorRunLog_error now w jobId jobData msg hp hs h3 h4, hfil3]
      norm_num [List.chain'_cons, List.chain'_singleton]
    | ok url =>
      cases hu : url.isEmpty with
      | true =>
        rw [executorRunLog_ok_empty now w jobId jobData url hu hp hs h3 h4, hfil3]
        norm_num [List.chain'_cons, List.chain'_singleton]
      | false =>
        rw [executorRunLog_ok now w jobId jobData url hu hp hs h3 h4, hfil4]
        norm_num [List.chain'_cons, List.chain'_singleton]
  · cases gen with
    | error msg =>
      rw [executorRunLog_error now w jobId jobData msg hp hs h3 h4]
      decide
    | ok url =>
      cases hu : url.isEmpty with
      | true =>
        rw [executorRunLog_ok_empty now w jobId jobData url hu hp hs h3 h4]
        decide
      | false =>
        rw [executorRunLog_ok now w jobId jobData url hu hp hs h3 h4]
        decide
  · intro url hurl hgen
    subst hgen
    exact executorRunLog_ok now w jobId jobData url hurl hp hs h3 h4

/-- When the generation capability raises during a video executor run,
the error message is written to the Job Record and to the scene's
embedded active_job, both statuses become failed with the active_job
progress reset to 0, and every scene's id/assets view is exactly what it
was before the attempt. -/
theorem executorVideoFailure (now : Timestamp) (w : World)
    (jobId msg : String) (jobData : VideoJobDoc) (d : ProjectDoc)
    (sc : SceneDoc) (job0 : VideoJobDoc)
    (hp : jobData.project_id.isEmpty = false)
    (hs : jobData.scene_id.isEmpty = false)
    (h3 : lookupKey w.projects jobData.project_id = some d)
    (h4 : d.scenes.find? (fun s => s.id == jobData.scene_id) = some sc)
    (h5 : lookupKey w.video_jobs jobId = some job0)
    (hm : msg.isEmpty = false) :
    lookupKey (generateVideoForScene now w jobId jobData (.error msg)).1.video_jobs
        jobId =
      some { job0 with
             status := "failed"
             error_message := some msg
             updated_at := now } ∧
    (lookupKey (generateVideoForScene now w jobId jobData (.error msg)).1.projects
        jobData.project_id).map
        (fun dF => dF.scenes.find? (fun s => s.id == jobData.scene_id)) =
      some (some
        { sc with
          active_job := some
            { job_id := jobId, type := "video", status := "failed",
              progress := 0, started_at := none, last_update := some now,
              error_message := some msg } }) ∧
    (lookupKey (generateVideoForScene now w jobId jobData (.error msg)).1.projects
        jobData.project_id).map
        (fun dF => dF.scenes.map (fun s => (s.id, s.assets))) =
      some (d.scenes.map (fun s => (s.id, s.assets))) := by
  obtain ⟨scenes1, hu1, hcf1, hfind1, hmap1⟩ :=
    @cfUpdateSceneInProject_spec now d jobData.scene_id
      [UpdEntry.activeJob (mkActiveJobStatus now "video" "processing" jobId 10 none)]
      sc rfl h4
  let D1 : ProjectDoc :=
    { d with
      scenes := scenes1
      updated_at := now
      stats := { d.stats with last_activity := now } }
  let SC1 : SceneDoc := applyUpds sc [UpdEntry.activeJob
    (mkActiveJobStatus now "video" "processing" jobId 10 none)]
  obtain ⟨scenes2, hu2, hcf2, hfind2, hmap2⟩ :=
    @cfUpdateSceneInProject_spec now D1 jobData.scene_id
      [UpdEntry.activeJob (mkActiveJobStatus now "video" "processing" jobId 30 none)]
      SC1 rfl hfind1
  let D2 : ProjectDoc :=
    { D1 with
      scenes := scenes2
      updated_at := now
      stats := { D1.stats with last_activity := now } }
  let SC2 : SceneDoc := applyUpds SC1 [UpdEntry.activeJob
    (mkActiveJobStatus now "video" "processing" jobId 30 none)]
  obtain ⟨scenes3, hu3, hcf3, hfind3, hmap3⟩ :=
    @cfUpdateSceneInProject_spec now D2 jobData.scene_id
      [UpdEntry.activeJob (mkActiveJobStatus now "video" "failed" jobId 0 (some msg))]
      SC2 rfl hfind2
  let D3 : ProjectDoc :=
    { D2 with
      scenes := scenes3
      updated_at := now
      stats := { D2.stats with last_activity := now } }
  let JP : VideoJobDoc := { job0 with status := "processing", updated_at := now }
  let W1 : World := { w with video_jobs := setKey w.video_jobs jobId JP }
  let W2 : World := { W1 with projects := setKey W1.projects jobData.project_id D1 }
  let W3 : World := { W2 with projects := setKey W2.projects jobData.project_id D2 }
  let W4 : World := { W3 with genCalls := W3.genCalls + 1 }
  let JF : VideoJobDoc :=
    { job0 with status := "failed", error_message := some msg, updated_at := now }
  let W5 : World := { W4 with video_jobs := setKey W4.video_jobs jobId JF }
  let WF : World := { W5 with projects := setKey W5.projects jobData.project_id D3 }
  have hw1 : worldUpdateVideoJob w jobId (fun j =>
      { j with status := "processing", updated_at := now }) = W1 := by
    rw [worldUpdateVideoJob_eq h5]
  have hw2 : worldCfUpdateSceneJobStatus now
      (worldUpdateVideoJob w jobId fun j =>
        { j with status := "processing", updated_at := now })
      jobData.project_id jobData.scene_id "video" "processing" jobId 10 none = W2 := by
    rw [hw1]
    exact worldCfUpdateSceneJobStatus_eq
      (show lookupKey W1.projects jobData.project_id = some d from h3)
      (show cfUpdateSceneJobStatus now d jobData.scene_id "video" "processing"
        jobId 10 none = some D1 from hcf1)
  have hw3 : worldCfUpdateSceneJobStatus now
      (worldCfUpdateSceneJobStatus now
        (worldUpdateVideoJob w jobId fun j =>
          { j with status := "processing", updated_at := now })
        jobData.project_id jobData.scene_id "video" "processing" jobId 10 none)
      jobData.project_id jobData.scene_id "video" "processing" jobId 30 none = W3 := by
    rw [hw2]
    exact worldCfUpdateSceneJobStatus_eq
      (show lookupKey W2.projects jobData.project_id = some D1 from
        lookupKey_setKey_self _ _ _)
      (show cfUpdateSceneJobStatus now D1 jobData.scene_id "video" "processing"
        jobId 30 none = some D2 from hcf2)
  have hw5 : worldUpdateVideoJob W4 jobId (fun j =>
      { j with status := "failed", error_message := some msg, updated_at := now })
      = W5 := by
    rw [worldUpdateVideoJob_eq
      (show lookupKey W4.video_jobs jobId = some JP from lookupKey_setKey_self _ _ _)]
  have hrun : (generateVideoForScene now w jobId jobData (.error msg)).1 = WF := by
    rw [generateVideoForScene_guard hp hs]
    simp only [generateVideoForSceneBody]
    simp only [executor_scene_lookup now w jobId jobData h3 h4]
    rw [handleErrorVideo_eq now _ jobId msg _ _ hp hs]
    rw [hw3]
    show (worldCfUpdateSceneJobStatus now
      (worldUpdateVideoJob W4 jobId fun j =>
        { j with status := "failed", error_message := some msg, updated_at := now })
      jobData.project_id jobData.scene_id "video" "failed" jobId 0 (some msg)) = WF
    rw [hw5]
    exact worldCfUpdateSceneJobStatus_eq
      (show lookupKey W5.projects jobData.project_id = some D2 from
        lookupKey_setKey_self _ _ _)
      (show cfUpdateSceneJobStatus now D2 jobData.scene_id "video" "failed"
        jobId 0 (some msg) = some D3 from hcf3)
  have hajF : mkActiveJobStatus now "video" "failed" jobId 0 (some msg) =
      { job_id := jobId, type := "video", status := "failed", progress := 0,
        started_at := none, last_update := some now,
        error_message := some msg } := by
    simp [mkActiveJobStatus, hm]
  have hlookF : lookupKey WF.projects jobData.project_id = some D3 :=
    lookupKey_setKey_self _ _ _
  refine ⟨?_, ?_, ?_⟩
  · rw [hrun]
    exact (show lookupKey WF.video_jobs jobId = some JF from
      lookupKey_setKey_self _ _ _)
  · rw [hrun, hlookF]
    have hfin : D3.scenes.find? (fun s => s.id == jobData.scene_id) =
        some (applyUpds SC2 [UpdEntry.activeJob
          (mkActiveJobStatus now "video" "failed" jobId 0 (some msg))]) := hfind3
    rw [Option.map_some', hfin, hajF]
    rfl
  · rw [hrun, hlookF]
    have hm3 : D3.scenes.map (fun s => (s.id, s.assets)) =
        D2.scenes.map (fun s => (s.id, s.assets)) := hmap3
    have hm2 : D2.scenes.map (fun s => (s.id, s.assets)) =
        D1.scenes.map (fun s => (s.id, s.assets)) := hmap2
    have hm1 : D1.scenes.map (fun s => (s.id, s.assets)) =
        d.scenes.map (fun s => (s.id, s.assets)) := hmap1
    rw [Option.map_some', hm3, hm2, hm1]

/-- When the generation capability raises during a composition executor
run, the error message is written to the composition Job Record and to
the scene's embedded active_job, both statuses become failed with the
active_job progress reset to 0, and every scene's id/assets view is
exactly what it was before the attempt. -/
theorem executorCompFailure (now : Timestamp) (w : World)
    (jobId msg : String) (jobData : CompJobDoc) (d : ProjectDoc)
    (sc : SceneDoc) (job0 : CompJobDoc)
    (hp : jobData.project_id.isEmpty = false)
    (hs : jobData.scene_id.isEmpty = false)
    (h3 : lookupKey w.projects jobData.project_id = some d)
    (h4 : d.scenes.find? (fun s => s.id == jobData.scene_id) = some sc)
    (h5 : lookupKey w.composition_jobs jobId = some job0)
    (hm : msg.isEmpty = false) :
    lookupKey (generateCompositionForScene now w jobId jobData
        (.error msg)).1.composition_jobs jobId =
      some { job0 with
             status := "failed"
             error_message := some msg
             updated_at := now } ∧
    (lookupKey (generateCompositionForScene now w jobId jobData
        (.error msg)).1.projects jobData.project_id).map
        (fun dF => dF.scenes.find? (fun s => s.id == jobData.scene_id)) =
      some (some
        { sc with
          active_job := some
            { job_id := jobId, type := "composition", status := "failed",
              progress := 0, started_at := none, last_update := some now,
              error_message := some msg } }) ∧
    (lookupKey (generateCompositionForScene now w jobId jobData
        (.error msg)).1.projects jobData.project_id).map
        (fun dF => dF.scenes.map (fun s => (s.id, s.assets))) =
      some (d.scenes.map (fun s => (s.id, s.assets))) := by
  obtain ⟨scenes1, hu1, hcf1, hfind1, hmap1⟩ :=
    @cfUpdateSceneInProject_spec now d jobData.scene_id
      [UpdEntry.activeJob (mkActiveJobStatus now "composition" "processing" jobId 10 none)]
      sc rfl h4
  let D1 : ProjectDoc :=
    { d with
      scenes := scenes1
      updated_at := now
      stats := { d.stats with last_activity := now } }
  let SC1 : SceneDoc := applyUpds sc [UpdEntry.activeJob
    (mkActiveJobStatus now "composition" "processing" jobId 10 none)]
  obtain ⟨scenes2, hu2, hcf2, hfind2, hmap2⟩ :=
    @cfUpdateSceneInProject_spec now D1 jobData.scene_id
      [UpdEntry.activeJob (mkActiveJobStatus now "composition" "processing" jobId 30 none)]
      SC1 rfl hfind1
  let D2 : ProjectDoc :=
    { D1 with
      scenes := scenes2
      updated_at := now
      stats := { D1.stats with last_activity := now } }
  let SC2 : SceneDoc := applyUpds SC1 [UpdEntry.activeJob
    (mkActiveJobStatus now "composition" "processing" jobId 30 none)]
  obtain ⟨scenes3, hu3, hcf3, hfind3, hmap3⟩ :=
    @cfUpdateSceneInProject_spec now D2 jobData.scene_id
      [UpdEntry.activeJob (mkActiveJobStatus now "composition" "failed" jobId 0 (some msg))]
      SC2 rfl hfind2
  let D3 : ProjectDoc :=
    { D2 with
      scenes := scenes3
      updated_at := now
      stats := { D2.stats with last_activity := now } }
  let JP : CompJobDoc := { job0 with status := "processing", updated_at := now }
  let W1 : World := { w with composition_jobs := setKey w.composition_jobs jobId JP }
  let W2 : World := { W1 with projects := setKey W1.projects jobData.project_id D1 }
  let W3 : World := { W2 with projects := setKey W2.projects jobData.project_id D2 }
  let W4 : World := { W3 with genCalls := W3.genCalls + 1 }
  let JF : CompJobDoc :=
    { job0 with status := "failed", error_message := some msg, updated_at := now }
  let W5 : World := { W4 with composition_jobs := setKey W4.composition_jobs jobId JF }
  let WF : World := { W5 with projects := setKey W5.projects jobData.project_id D3 }
  have hw1 : worldUpdateCompJob w jobId (fun j =>
      { j with status := "processing", updated_at := now }) = W1 := by
    rw [worldUpdateCompJob_eq h5]
  have hw2 : worldCfUpdateSceneJobStatus now
      (worldUpdateCompJob w jobId fun j =>
        { j with status := "processing", updated_at := now })
      jobData.project_id jobData.scene_id "composition" "processing" jobId 10 none = W2 := by
    rw [hw1]
    exact worldCfUpdateSceneJobStatus_eq
      (show lookupKey W1.projects jobData.project_id = some d from h3)
      (show cfUpdateSceneJobStatus now d jobData.scene_id "composition" "processing"
        jobId 10 none = some D1 from hcf1)
  have hlook2 : lookupKey (worldCfUpdateSceneJobStatus now
      (worldUpdateCompJob w jobId fun j =>
        { j with status := "processing", updated_at := now })
      jobData.project_id jobData.scene_id "composition" "processing" jobId 10 none).projects
      jobData.project_id = some D1 := by
    rw [hw2]
    exact lookupKey_setKey_self _ _ _
  have hscene2 : getSceneFromProject (worldCfUpdateSceneJobStatus now
      (worldUpdateCompJob w jobId fun j =>
        { j with status := "processing", updated_at := now })
      jobData.project_id jobData.scene_id "composition" "processing" jobId 10 none)
      jobData.project_id jobData.scene_id = some SC1 := by
    rw [hw2]
    rw [getSceneFromProject_eq jobData.scene_id
      (show lookupKey W2.projects jobData.project_id = some D1 from
        lookupKey_setKey_self _ _ _)]
    exact hfind1
  have hw3 : worldCfUpdateSceneJobStatus now
      (worldCfUpdateSceneJobStatus now
        (worldUpdateCompJob w jobId fun j =>
          { j with status := "processing", updated_at := now })
        jobData.project_id jobData.scene_id "composition" "processing" jobId 10 none)
      jobData.project_id jobData.scene_id "composition" "processing" jobId 30 none = W3 := by
    rw [hw2]
    exact worldCfUpdateSceneJobStatus_eq
      (show lookupKey W2.projects jobData.project_id = some D1 from
        lookupKey_setKey_self _ _ _)
      (show cfUpdateSceneJobStatus now D1 jobData.scene_id "composition" "processing"
        jobId 30 none = some D2 from hcf2)
  have hw5 : worldUpdateCompJob W4 jobId (fun j =>
      { j with status := "failed", error_message := some msg, updated_at := now })
      = W5 := by
    rw [worldUpdateCompJob_eq
      (show lookupKey W4.composition_jobs jobId = some JP from lookupKey_setKey_self _ _ _)]
  have hrun : (generateCompositionForScene now w jobId jobData (.error msg)).1 = WF := by
    rw [generateCompositionForScene_guard hp hs]
    simp only [generateCompositionForSceneBody]
    simp only [hlook2, hscene2]
    rw [handleErrorComposition_eq now _ jobId msg _ _ hp hs]
    rw [hw3]
    show (worldCfUpdateSceneJobStatus now
      (worldUpdateCompJob W4 jobId fun j =>
        { j with status := "failed", error_message := some msg, updated_at := now })
      jobData.project_id jobData.scene_id "composition" "failed" jobId 0 (some msg)) = WF
    rw [hw5]
    exact worldCfUpdateSceneJobStatus_eq
      (show lookupKey W5.projects jobData.project_id = some D2 from
        lookupKey_setKey_self _ _ _)
      (show cfUpdateSceneJobStatus now D2 jobData.scene_id "composition" "failed"
        jobId 0 (some msg) = some D3 from hcf3)
  have hajF : mkActiveJobStatus now "composition" "failed" jobId 0 (some msg) =
      { job_id := jobId, type := "composition", status := "failed", progress := 0,
        started_at := none, last_update := some now,
        error_message := some msg } := by
    simp [mkActiveJobStatus, hm]
  have hlookF : lookupKey WF.projects jobData.project_id = some D3 :=
    lookupKey_setKey_self _ _ _
  refine ⟨?_, ?_, ?_⟩
  · rw [hrun]
    exact (show lookupKey WF.composition_jobs jobId = some JF from
      lookupKey_setKey_self _ _ _)
  · rw [hrun, hlookF]
    have hfin : D3.scenes.find? (fun s => s.id == jobData.scene_id) =
        some (applyUpds SC2 [UpdEntry.activeJob
          (mkActiveJobStatus now "composition" "failed" jobId 0 (some msg))]) := hfind3
    rw [Option.map_some', hfin, hajF]
    rfl
  · rw [hrun, hlookF]
    have hm3 : D3.scenes.map (fun s => (s.id, s.assets)) =
        D2.scenes.map (fun s => (s.id, s.assets)) := hmap3
    have hm2 : D2.scenes.map (fun s => (s.id, s.assets)) =
        D1.scenes.map (fun s => (s.id, s.assets)) := hmap2
    have hm1 : D1.scenes.map (fun s => (s.id, s.assets)) =
        d.scenes.map (fun s => (s.id, s.assets)) := hmap1
    rw [Option.map_some', hm3, hm2, hm1]

def c6Scene : SceneDoc :=
  { id := "s1", scene_number := 1, title := "Reveal", description := "pack shot",
    duration_seconds := 5,
    assets := { thumbnail_path := some "projects/p6/scenes/s1/thumb.png" } }

def c6Project : ProjectDoc :=
  { id := "p6", name := "Teaser", user_id := "u6", created_at := 0, updated_at := 0,
    scenes := [c6Scene],
    stats := { total_scenes := 1, completed_scenes := 0, last_activity := 0 } }

def c6Job : VideoJobDoc :=
  { project_id := "p6", scene_id := "s1", user_id := "u6",
    image_url := "projects/p6/scenes/s1/thumb.png", prompt := "pack shot",
    duration := 5, status := "pending", created_at := 0, updated_at := 0 }

def c6CompJob : CompJobDoc :=
  { project_id := "p6", scene_id := "s1", user_id := "u6",
    status := "pending", created_at := 0, updated_at := 0 }

def c6World : World :=
  { projects := [("p6", c6Project)], video_jobs := [("j6", c6Job)],
    composition_jobs := [("jc6", c6CompJob)] }

/-- Claim C6: for both executors — generate_video_for_scene and
generate_composition_for_scene — a run in which the external generation
capability raises writes the error message to the Job Record and to the
scene's embedded active_job, sets both statuses to failed with the
active_job progress reset to 0, and leaves every scene's id/assets view
exactly as it was before the attempt: the failure is recorded on both
documents, never silently swallowed. -/
theorem claim_C6_failure_recorded (now : Timestamp) (w : World)
    (vJobId vMsg : String) (vJob : VideoJobDoc) (vd : ProjectDoc)
    (vsc : SceneDoc) (vjob0 : VideoJobDoc)
    (cJobId cMsg : String) (cJob : CompJobDoc) (cd : ProjectDoc)
    (csc : SceneDoc) (cjob0 : CompJobDoc)
    (hvp : vJob.project_id.isEmpty = false)
    (hvs : vJob.scene_id.isEmpty = false)
    (hv3 : lookupKey w.projects vJob.project_id = some vd)
    (hv4 : vd.scenes.find? (fun s => s.id == vJob.scene_id) = some vsc)
    (hv5 : lookupKey w.video_jobs vJobId = some vjob0)
    (hvm : vMsg.isEmpty = false)
    (hcp : cJob.project_id.isEmpty = false)
    (hcs : cJob.scene_id.isEmpty = false)
    (hc3 : lookupKey w.projects cJob.project_id = some cd)
    (hc4 : cd.scenes.find? (fun s => s.id == cJob.scene_id) = some csc)
    (hc5 : lookupKey w.composition_jobs cJobId = some cjob0)
    (hcm : cMsg.isEmpty = false) :
    (lookupKey (generateVideoForScene now w vJobId vJob
        (.error vMsg)).1.video_jobs vJobId =
      some { vjob0 with
             status := "failed"
             error_message := some vMsg
             updated_at := now } ∧
     (lookupKey (generateVideoForScene now w vJobId vJob
        (.error vMsg)).1.projects vJob.project_id).map
        (fun dF => dF.scenes.find? (fun s => s.id == vJob.scene_id)) =
      some (some
        { vsc with
          active_job := some
            { job_id := vJobId, type := "video", status := "failed",
              progress := 0, started_at := none, last_update := some now,
              error_message := some vMsg } }) ∧
     (lookupKey (generateVideoForScene now w vJobId vJob
        (.error vMsg)).1.projects vJob.project_id).map
        (fun dF => dF.scenes.map (fun s => (s.id, s.assets))) =
      some (vd.scenes.map (fun s => (s.id, s.assets)))) ∧
    (lookupKey (generateCompositionForScene now w cJobId cJob
        (.error cMsg)).1.composition_jobs cJobId =
      some { cjob0 with
             status := "failed"
             error_message := some cMsg
             updated_at := now } ∧
     (lookupKey (generateCompositionForScene now w cJobId cJob
        (.error cMsg)).1.projects cJob.project_id).map
        (fun dF => dF.scenes.find? (fun s => s.id == cJob.scene_id)) =
      some (some
        { csc with
          active_job := some
            { job_id := cJobId, type := "composition", status := "failed",
              progress := 0, started_at := none, last_update := some now,
              error_message := some cMsg } }) ∧
     (lookupKey (generateCompositionForScene now w cJobId cJob
        (.error cMsg)).1.projects cJob.project_id).map
        (fun dF => dF.scenes.map (fun s => (s.id, s.assets))) =
      some (cd.scenes.map (fun s => (s.id, s.assets)))) :=
  ⟨executorVideoFailure now w vJobId vMsg vJob vd vsc vjob0
     hvp hvs hv3 hv4 hv5 hvm,
   executorCompFailure now w cJobId cMsg cJob cd csc cjob0
     hcp hcs hc3 hc4 hc5 hcm⟩

/-- Witness for C6 at a concrete failing run of each executor. -/
theorem claim_C6_witness :
    (lookupKey (generateVideoForScene 4 c6World "j6" c6Job
        (.error "Replicate quota exceeded")).1.video_jobs "j6" =
      some { c6Job with
             status := "failed"
             error_message := some "Replicate quota exceeded"
             updated_at := 4 } ∧
     (lookupKey (generateVideoForScene 4 c6World "j6" c6Job
        (.error "Replicate quota exceeded")).1.projects "p6").map
        (fun dF => dF.scenes.find? (fun s => s.id == "s1")) =
      some (some
        { c6Scene with
          active_job := some
            { job_id := "j6", type := "video", status := "failed",
              progress := 0, started_at := none, last_update := some 4,
              error_message := some "Replicate quota exceeded" } }) ∧
     (lookupKey (generateVideoForScene 4 c6World "j6" c6Job
        (.error "Replicate quota exceeded")).1.projects "p6").map
        (fun dF => dF.scenes.map (fun s => (s.id, s.assets))) =
      some (c6Project.scenes.map (fun s => (s.id, s.assets)))) ∧
    (lookupKey (generateCompositionForScene 4 c6World "jc6" c6CompJob
        (.error "OpenAI quota exceeded")).1.composition_jobs "jc6" =
      some { c6CompJob with
             status := "failed"
             error_message := some "OpenAI quota exceeded"
             updated_at := 4 } ∧
     (lookupKey (generateCompositionForScene 4 c6World "jc6" c6CompJob
        (.error "OpenAI quota exceeded")).1.projects "p6").map
        (fun dF => dF.scenes.find? (fun s => s.id == "s1")) =
      some (some
        { c6Scene with
          active_job := some
            { job_id := "jc6", type := "composition", status := "failed",
              progress := 0, started_at := none, last_update := some 4,
              error_message := some "OpenAI quota exceeded" } }) ∧
     (lookupKey (generateCompositionForScene 4 c6World "jc6" c6CompJob
        (.error "OpenAI quota exceeded")).1.projects "p6").map
        (fun dF => dF.scenes.map (fun s => (s.id, s.assets))) =
      some (c6Project.scenes.map (fun s => (s.id, s.assets)))) :=
  claim_C6_failure_recorded 4 c6World "j6" "Replicate quota exceeded" c6Job
    c6Project c6Scene c6Job "jc6" "OpenAI quota exceeded" c6CompJob
    c6Project c6Scene c6CompJob rfl rfl rfl rfl rfl rfl rfl rfl rfl rfl rfl rfl

def c7Scene : SceneDoc :=
  { id := "s1", scene_number := 1, title := "Shot", description := "demo",
    duration_seconds := 5 }

def c7Project : ProjectDoc :=
  { id := "p7", name := "Promo", user_id := "u7", created_at := 0, updated_at := 0,
    scenes := [c7Scene],
    stats := { total_scenes := 1, completed_scenes := 0, last_activity := 0 } }

def c7Job : VideoJobDoc :=
  { project_id := "p7", scene_id := "s1", user_id := "u7",
    image_url := "projects/p7/scenes/s1/thumb.png", prompt := "demo",
    duration := 5, status := "pending", created_at := 0, updated_at := 0 }

def c7World : World :=
  { projects := [("p7", c7Project)], video_jobs := [("j7", c7Job)] }

/-- Result of the first trigger delivery for job j7. -/
def c7Run1 : World :=
  (generateVideoForScene 1 c7World "j7" c7Job
    (.ok "http://replicate.example/tmp.mp4")).1

/-- Result of delivering the same creation event a second time after the
job has completed. -/
def c7Run2 : World :=
  (generateVideoForScene 2 c7Run1 "j7" c7Job
    (.ok "http://replicate.example/tmp.mp4")).1

/-- Claim C7 is false as stated: after the first delivery the Job Record
is terminal (completed), yet re-delivering the same event re-invokes the
external generation capability and the blob upload a second time — the
executor performs no status check and does not short-circuit. -/
theorem claim_C7_counterexample :
    (lookupKey c7Run1.video_jobs "j7").map (fun j => j.status) =
      some "completed" ∧
    c7Run1.genCalls = 1 ∧ c7Run1.uploads = 1 ∧
    c7Run2.genCalls = 2 ∧ c7Run2.uploads = 2 :=
  ⟨rfl, rfl, rfl, rfl, rfl⟩

/-- Claim C7 amended: the executor never reads the Job Record's current
status — every delivery whose payload carries non-empty ids and whose
scene exists invokes the external generation capability exactly once
more, whatever state the job is in, so duplicate at-least-once delivery
repeats the generation work instead of short-circuiting. -/
theorem claim_C7_amended (now : Timestamp) (w : World) (jobId : String)
    (jobData : VideoJobDoc) (gen : Except String String)
    (d : ProjectDoc) (sc : SceneDoc)
    (hp : jobData.project_id.isEmpty = false)
    (hs : jobData.scene_id.isEmpty = false)
    (h3 : lookupKey w.projects jobData.project_id = some d)
    (h4 : d.scenes.find? (fun s => s.id == jobData.scene_id) = some sc) :
    (generateVideoForScene now w jobId jobData gen).1.genCalls =
      w.genCalls + 1 := by
  rw [generateVideoForScene_guard hp hs]
  cases gen with
  | error msg =>
    simp only [generateVideoForSceneBody]
    simp only [executor_scene_lookup now w jobId jobData h3 h4]
    simp only [handleErrorVideo_eq, hp, hs]
    simp only [worldCfUpdateSceneJobStatus_genCalls, worldUpdateVideoJob_genCalls]
  | ok url =>
    simp only [generateVideoForSceneBody]
    simp only [executor_scene_lookup now w jobId jobData h3 h4]
    cases hu : url.isEmpty with
    | true =>
      simp only [if_true]
      simp only [handleErrorVideo_eq, hp, hs]
      simp only [worldCfUpdateSceneJobStatus_genCalls, worldUpdateVideoJob_genCalls]
    | false =>
      simp only [Bool.false_eq_true, if_false]
      cases hsw : strStartsWith url "http" with
      | true =>
        simp only [if_true]
        simp only [worldCfUpdateSceneJobStatus_genCalls,
          worldUpdateVideoJob_genCalls, worldCfUpdateSceneAssets_genCalls]
      | false =>
        simp only [Bool.false_eq_true, if_false]
        simp only [worldCfUpdateSceneJobStatus_genCalls,
          worldUpdateVideoJob_genCalls, worldCfUpdateSceneAssets_genCalls]

/-- Witness for the amended C7: the second delivery on the concrete
world performs one more generation call. -/
theorem claim_C7_amended_witness :
    (generateVideoForScene 2 c7Run1 "j7" c7Job
        (.ok "http://replicate.example/tmp.mp4")).1.genCalls =
      c7Run1.genCalls + 1 :=
  claim_C7_amended 2 c7Run1 "j7" c7Job (.ok "http://replicate.example/tmp.mp4")
    _ _ rfl rfl rfl rfl

/-- Witness for C8 at a concrete successful run. -/
theorem claim_C8_witness :
    List.Chain' (fun a b => a.2 ≤ b.2)
      (((generateVideoForScene 1 c7World "j7" c7Job
          (.ok "http://replicate.example/tmp.mp4")).2).filter
        (fun e => e.1 == "processing")) ∧
    (∀ e ∈ (generateVideoForScene 1 c7World "j7" c7Job
        (.ok "http://replicate.example/tmp.mp4")).2,
        e.1 = "completed" → e.2 = 100) ∧
    (∀ url, url.isEmpty = false →
      (Except.ok "http://replicate.example/tmp.mp4" : Except String String) =
        .ok url →
      (generateVideoForScene 1 c7World "j7" c7Job
          (.ok "http://replicate.example/tmp.mp4")).2 =
        [("processing", 10), ("processing", 30), ("processing", 70),
         ("completed", 100)]) :=
  claim_C8_monotonic_progress 1 c7World "j7" c7Job
    (.ok "http://replicate.example/tmp.mp4") c7Project c7Scene
    rfl rfl rfl rfl

def c10Project : ProjectDoc :=
  { id := "p10", name := "Secret", user_id := "alice", created_at := 0,
    updated_at := 0, scenes := [],
    stats := { total_scenes := 0, completed_scenes := 0, last_activity := 0 } }

/-- Witness for C10 at a concrete store: the project exists but belongs
to alice, and bob's request gets the same 404 as a nonexistent id. -/
theorem claim_C10_witness :
    fsGetProject [("p10", c10Project)] "p10" "bob" = .ok none ∧
    getProjectEndpoint [("p10", c10Project)] "p10" "bob" =
      .error (404, "Project not found") :=
  claim_C10_not_found_hides_ownership [("p10", c10Project)] "p10" "bob"
    (Or.inr ⟨c10Project, rfl, by decide⟩)

/-- Claim C9: over any finite run of the scene_update_generator loop, the
change events delivered for a scene id are exactly the de-stuttered
sequence of that scene's observed state tuples (a scene_update is emitted
iff the current tuple differs from the last one emitted for that id on
this connection, starting from nothing emitted), in observation order; in
particular no two consecutive change events for the same id carry equal
tuples, and exactly one keepalive frame is emitted per poll cycle even
when nothing changed. -/
theorem claim_C9_diff_and_keepalive (snapshots : List (List SBScene))
    (sid : String) :
    updatesFor sid (runSSE snapshots) =
      destutterFrom none (observedFor sid snapshots) ∧
    List.Chain' (fun a b => a ≠ b) (updatesFor sid (runSSE snapshots)) ∧
    keepaliveCount (runSSE snapshots) = snapshots.length := by
  obtain ⟨h1, h2⟩ := runCycles_spec sid snapshots []
  have hu : updatesFor sid (runSSE snapshots) =
      updatesFor sid (runCycles snapshots []) := by
    simp [runSSE, updatesFor]
  have hk : keepaliveCount (runSSE snapshots) =
      keepaliveCount (runCycles snapshots []) := by
    have hb : (SSEFrame.connected == SSEFrame.keepalive) = false := rfl
    simp [runSSE, keepaliveCount, List.countP_cons, hb]
  have hlook : lookupKey ([] : List (String × ObsState)) sid = none := rfl
  refine ⟨?_, ?_, ?_⟩
  · rw [hu, h1, hlook]
  · rw [hu, h1, hlook]
    exact destutterFrom_chain _ none
  · rw [hk, h2]

end JVP
